import Mathlib

/-!
Verification of express-utils: response envelopes and error translation.

A shallow embedding of `src/index.js` (the `ApiResponse` envelope builders, the
`responseMiddleware` helpers `res.data` / `res.error`, the `AppError` taxonomy, the
`ErrorRegistry`, `errorHandler` and `asyncHandler`) together with theorems about it.

Modelling conventions.

* JavaScript values are the type `Val`. An object is its prototype together with the
  sequence of its own data-property definitions, in definition order; a later definition of
  a key overrides an earlier one, which is how an object literal with a spread and a
  property assignment behave. Reads go through `Val.getProp`, which walks the prototype
  chain and raises a `TypeError` on `undefined` and `null`.
* Numbers are safe integers, strings are Lean strings, accessor properties, symbols and
  proxies are not modelled (the only accessor kept is `Object.prototype.__proto__`).
* The conversion of a value to a string or property key is `Val.toStr`. An object is converted
  by its own `toString` and `valueOf` as the language prescribes, which raises a TypeError
  when neither gives a primitive. Function bodies are not part of the model: a function is a
  class constructor, one of the built-ins listed in `Builtin`, or a function that returns or
  raises a fixed value.
* The clock is a parameter: `now` is the string `new Date().toISOString()` returns at the
  call.
* Side effects (`console.error`, `res.status`, `res.json`, `next`) are recorded, in order,
  as a list of `Event`s; a raised exception is the `thrown` field of an `Outcome`. The
  continuation `next` is a parameter, given by the effects of a call of it.
* A promise is given by the way it settles (`Settled`): the scheduling of the reaction is not
  modelled, only whether and with what argument it runs.
-/

namespace ExpressUtils

/-! ## Values -/

/-- The built-in functions of the runtime that the model knows: the constructors `Object`,
`Error`, `TypeError` and `RangeError`, the function-valued members of `Object.prototype`
(`objectMethod name`, for the names in `objectPrototypeMethods`) and
`Error.prototype.toString`. -/
inductive Builtin where
  | object
  | error
  | typeError
  | rangeError
  | objectMethod (name : String)
  | errorToString

/-- The `name` property of a built-in function. -/
def Builtin.name : Builtin → String
  | .object => "Object"
  | .error => "Error"
  | .typeError => "TypeError"
  | .rangeError => "RangeError"
  | .objectMethod name => name
  | .errorToString => "toString"

/-- A JavaScript value. A number `num n` is a safe integer (of magnitude at most
`2 ^ 53 - 1`), the range in which a number is that integer and is printed as its plain decimal
digits. There are four kinds of function object:
`fn name` is a class constructor (declared with `class`) of that name, `builtin b` a built-in
function, `returning name v` a plain function that returns `v` and `raising name e` one that
raises `e`, whatever they are called with. `objectPrototype` is the built-in
`Object.prototype`; `obj proto props` is an ordinary object, without internal slots, with
prototype `proto` (`null` for none) and own data properties `props`, a later entry for a key
overriding an earlier one. -/
inductive Val where
  | undefined
  | null
  | bool (b : Bool)
  | num (n : Int)
  | str (s : String)
  | fn (name : String)
  | builtin (b : Builtin)
  | returning (name : String) (v : Val)
  | raising (name : String) (e : Val)
  | objectPrototype
  | obj (proto : Val) (props : List (String × Val))

namespace Val

/-- The value of the own property `k` in a sequence of property definitions: the last
definition of `k`, if there is one. -/
def lookupOwn : List (String × Val) → String → Option Val
  | [], _ => none
  | (k', v) :: rest, k =>
    match lookupOwn rest k with
    | some w => some w
    | none => if k' = k then some v else none

/-- The function-valued members of `Object.prototype` other than `constructor`. -/
def objectPrototypeMethods : List String :=
  ["__defineGetter__", "__defineSetter__", "hasOwnProperty", "__lookupGetter__",
   "__lookupSetter__", "isPrototypeOf", "propertyIsEnumerable", "toString", "valueOf",
   "toLocaleString"]

/-- Property lookup along the prototype chain starting at the given object. `recvProto` is the
prototype of the object the read started from: it is what the `__proto__` accessor of
`Object.prototype` returns. -/
def getFrom (recvProto : Val) : Val → String → Val
  | obj proto props, k =>
    match lookupOwn props k with
    | some v => v
    | none => getFrom recvProto proto k
  | objectPrototype, k =>
    if k = "constructor" then builtin .object
    else if k = "__proto__" then recvProto
    else if k ∈ objectPrototypeMethods then builtin (.objectMethod k)
    else undefined
  | _, _ => undefined

/-- The built-in `Error.prototype`. -/
def errorPrototype : Val :=
  obj objectPrototype
    [("constructor", builtin .error), ("name", str "Error"), ("message", str ""),
     ("toString", builtin .errorToString)]

/-- A TypeError instance, as the runtime raises it. -/
def typeError (msg : String) : Val :=
  obj (obj errorPrototype
      [("constructor", builtin .typeError), ("name", str "TypeError"), ("message", str "")])
    [("message", str msg)]

/-- A RangeError instance, as the runtime raises it when the call stack is exhausted. -/
def rangeError (msg : String) : Val :=
  obj (obj errorPrototype
      [("constructor", builtin .rangeError), ("name", str "RangeError"), ("message", str "")])
    [("message", str msg)]

/-- The read `v.k` (or `v[k]` for a string key). It raises a TypeError when `v` is `undefined`
or `null`. Of a function object only `name` is modelled and of a primitive nothing is: the
module reads `name` and `message` of the raised value and `message`, `code` and `status` of a
registry result, none of which a primitive or a built-in function carries. -/
def getProp (v : Val) (k : String) : Except Val Val :=
  match v with
  | undefined =>
    .error (typeError ("Cannot read properties of undefined (reading \x27" ++ k ++ "\x27)"))
  | null =>
    .error (typeError ("Cannot read properties of null (reading \x27" ++ k ++ "\x27)"))
  | obj proto props => .ok (getFrom proto (obj proto props) k)
  | objectPrototype => .ok (getFrom null objectPrototype k)
  | fn name => .ok (if k = "name" then str name else undefined)
  | builtin b => .ok (if k = "name" then str b.name else undefined)
  | returning name _ => .ok (if k = "name" then str name else undefined)
  | raising name _ => .ok (if k = "name" then str name else undefined)
  | _ => .ok undefined

/-- Whether the object has `k` as an own property. -/
def hasOwn (v : Val) (k : String) : Bool :=
  match v with
  | obj _ props => (lookupOwn props k).isSome
  | _ => false

/-- JavaScript truthiness, as the operators `||` and `if` test it. -/
def truthy : Val → Bool
  | undefined => false
  | null => false
  | bool b => b
  | num n => n != 0
  | str s => s != ""
  | _ => true

/-- Whether a value is a primitive: `undefined`, `null`, a boolean, a number or a string.
Every other value is an Object in the sense of the language, functions included. -/
def isPrimitive : Val → Bool
  | undefined => true
  | null => true
  | bool _ => true
  | num _ => true
  | str _ => true
  | _ => false

/-- The string of a primitive value (`ToString`); for the other values, which are converted
to a primitive first, see `toStr`. -/
def primToStr : Val → String
  | null => "null"
  | bool b => if b then "true" else "false"
  | num n => toString n
  | str s => s
  | _ => "undefined"

/-- The call `method.call(O)`, with no argument, of a value found as a method of the object
`O`, for every function except `Object.prototype.toLocaleString`; `none` when the value is
not callable. `errString` is what `Error.prototype.toString` returns for `O`. A class
constructor cannot be called without `new`; the built-in constructors return a new object;
`hasOwnProperty` and `propertyIsEnumerable` test the key "undefined"; `__defineGetter__` and
`__defineSetter__` reject the missing function; `__lookupGetter__` and `__lookupSetter__`
find no accessor. -/
def callBasic (errString : Except Val String) (O : Val) : Val → Option (Except Val Val)
  | fn cls =>
    some (.error (typeError
      ("Class constructor " ++ cls ++ " cannot be invoked without \x27new\x27")))
  | returning _ v => some (.ok v)
  | raising _ e => some (.error e)
  | builtin .object => some (.ok (obj objectPrototype []))
  | builtin .error => some (.ok (obj errorPrototype []))
  | builtin .typeError => some (.ok (typeError ""))
  | builtin .rangeError => some (.ok (rangeError ""))
  | builtin .errorToString =>
    match errString with
    | .ok s => some (.ok (str s))
    | .error e => some (.error e)
  | builtin (.objectMethod name) =>
    if name = "toString" then some (.ok (str "[object Object]"))
    else if name = "valueOf" then some (.ok O)
    else if name = "hasOwnProperty" then some (.ok (bool (hasOwn O "undefined")))
    else if name = "propertyIsEnumerable" then some (.ok (bool (hasOwn O "undefined")))
    else if name = "isPrototypeOf" then some (.ok (bool false))
    else if name = "__defineGetter__" then
      some (.error (typeError "Object.prototype.__defineGetter__: Expecting function"))
    else if name = "__defineSetter__" then
      some (.error (typeError "Object.prototype.__defineSetter__: Expecting function"))
    else some (.ok undefined)
  | _ => none

/-- The call `method.call(O)`, with no argument, of a value found as a method of `O`.
`Object.prototype.toLocaleString` calls `O.toString()`, here `toStringMethod`: that is a
TypeError when it is not callable and never ends, exhausting the stack, when it is
`toLocaleString` itself. -/
def callMethod (errString : Except Val String) (O toStringMethod : Val) :
    Val → Option (Except Val Val)
  | builtin (.objectMethod name) =>
    if name = "toLocaleString" then
      match toStringMethod with
      | builtin (.objectMethod inner) =>
        if inner = "toLocaleString" then
          some (.error (rangeError "Maximum call stack size exceeded"))
        else callBasic errString O (builtin (.objectMethod inner))
      | m =>
        match callBasic errString O m with
        | some r => some r
        | none => some (.error (typeError "this.toString is not a function"))
    else callBasic errString O (builtin (.objectMethod name))
  | m => callBasic errString O m

/-- The conversion `OrdinaryToPrimitive(O, string)` of an object whose `toString` and
`valueOf` properties have the given values: the first of the two that is callable and
returns a primitive gives the result, and it is a TypeError when neither does. -/
def ordinaryToPrimitive (errString : Except Val String) (O toStringMethod valueOfMethod : Val) :
    Except Val Val :=
  let viaValueOf : Except Val Val :=
    match callMethod errString O toStringMethod valueOfMethod with
    | some (.error e) => .error e
    | some (.ok r) =>
      if isPrimitive r then .ok r
      else .error (typeError "Cannot convert object to primitive value")
    | none => .error (typeError "Cannot convert object to primitive value")
  match callMethod errString O toStringMethod toStringMethod with
  | some (.error e) => .error e
  | some (.ok r) => if isPrimitive r then .ok r else viaValueOf
  | none => viaValueOf

/-- The text `Error.prototype.toString` builds from the strings of `name` and `message`. -/
def errorText (name message : String) : String :=
  if name = "" then message
  else if message = "" then name
  else name ++ ": " ++ message

mutual
/-- The conversion `ToString(v)` of a value to a string, which is also its conversion to a
property key (`o[v]`) and what the `Error` constructor does with its message. A primitive has
its string; a function has its source text, for which a text with the function's name stands
here (no text of that form is a key of the registry or of `Object.prototype`); an object is
first converted by its own `toString` or `valueOf`, and the conversion raises a TypeError
when neither is callable and returns a primitive. -/
def toStr : Val → Except Val String
  | undefined => .ok "undefined"
  | null => .ok "null"
  | bool b => .ok (primToStr (bool b))
  | num n => .ok (primToStr (num n))
  | str s => .ok s
  | fn name => .ok ("class " ++ name ++ " \x7b \x7d")
  | builtin b => .ok ("function " ++ b.name ++ "() \x7b [native code] \x7d")
  | returning name _ => .ok ("function " ++ name ++ "() \x7b \x7d")
  | raising name _ => .ok ("function " ++ name ++ "() \x7b \x7d")
  | objectPrototype => .ok "[object Object]"
  | obj proto props =>
    let nameString : Except Val String :=
      match fieldStrOwn props "name" "Error" with
      | some r => r
      | none => fieldStr proto "name" "Error"
    let messageString : Except Val String :=
      match fieldStrOwn props "message" "" with
      | some r => r
      | none => fieldStr proto "message" ""
    let errString : Except Val String :=
      match nameString with
      | .error e => .error e
      | .ok n =>
        match messageString with
        | .error e => .error e
        | .ok m => .ok (errorText n m)
    match ordinaryToPrimitive errString (obj proto props)
        (getFrom proto (obj proto props) "toString")
        (getFrom proto (obj proto props) "valueOf") with
    | .ok p => .ok (primToStr p)
    | .error e => .error e
/-- The string of the property `k` read from an object along its prototype chain, `d` when the
property is absent or `undefined`; used for `name` and `message`, which `Object.prototype`
does not have. -/
def fieldStr : Val → String → String → Except Val String
  | obj proto props, k, d =>
    match fieldStrOwn props k d with
    | some r => r
    | none => fieldStr proto k d
  | _, _, d => .ok d
/-- The string of the own property `k`, if there is one: `d` when its value is `undefined`. -/
def fieldStrOwn : List (String × Val) → String → String → Option (Except Val String)
  | [], _, _ => none
  | (k', v) :: rest, k, d =>
    match fieldStrOwn rest k d with
    | some r => some r
    | none =>
      if k' = k then
        some (match v with
          | undefined => .ok d
          | _ => toStr v)
      else none
end

/-- A parameter default `p = d`: the default is taken exactly when the argument is
`undefined`, which is also what an omitted argument is. -/
def dflt (v d : Val) : Val :=
  match v with
  | undefined => d
  | w => w

/-- The own enumerable properties an object spread `...v` copies: those of an object, one per
character of a string, none for the other values. -/
def ownProps : Val → List (String × Val)
  | obj _ props => props
  | str s => s.toList.enum.map (fun p => (toString p.1, str (String.singleton p.2)))
  | _ => []

/-- An object literal `{ ... }`: prototype `Object.prototype`, the listed properties. -/
def literal (props : List (String × Val)) : Val := obj objectPrototype props

end Val

open Val

/-! ## ApiResponse -/

/-- `ApiResponse.success(data, meta = {})`. -/
def ApiResponse.success (data meta : Val) (now : String) : Val :=
  let meta := dflt meta (literal [])
  literal [("data", data),
           ("meta", literal ([("timestamp", str now)] ++ ownProps meta))]

/-- `ApiResponse.error(message, code = "ERROR", details = null, meta = {})`. -/
def ApiResponse.error (message code details meta : Val) (now : String) : Val :=
  let code := dflt code (str "ERROR")
  let details := dflt details null
  let meta := dflt meta (literal [])
  literal [("error", literal [("message", message), ("code", code), ("details", details)]),
           ("meta", literal ([("timestamp", str now)] ++ ownProps meta))]

/-! ## responseMiddleware -/

/-- The part of the request the module reads. -/
structure Req where
  originalUrl : Val
  method : Val

/-- An observable effect. -/
inductive Event where
  | log (v : Val)
  | status (code : Val)
  | json (body : Val)
  | next (args : List Val)

/-- What a call did: its effects in order, and the exception it raised, if any. -/
structure Outcome where
  events : List Event
  thrown : Option Val

/-- The continuation `next` a pipeline stage receives: the effects of calling it with the
given arguments. -/
abbrev Next := List Val → List Event

/-- The continuation that records each call of it as one `next` event. -/
def nextStage : Next := fun args => [Event.next args]

/-- The response context: `helpers` is `some rq` once `responseMiddleware` has attached
`res.data` and `res.error`, both closed over the request `rq` it ran on. -/
structure Res where
  helpers : Option Req

/-- The closure `res.data = (payload, meta = {}, status = 200) => ...` over `req`. -/
def resData (req : Req) (now : String) (payload meta status : Val) : List Event :=
  let meta := dflt meta (literal [])
  let status := dflt status (num 200)
  let meta := literal ([("endpoint", req.originalUrl), ("method", req.method),
                        ("responseCode", status)] ++ ownProps meta)
  [Event.status status, Event.json (ApiResponse.success payload meta now)]

/-- The closure `res.error = (message, code = "ERROR", status = 400, details = null,
meta = {}) => ...` over `req`. -/
def resError (req : Req) (now : String) (message code status details meta : Val) :
    List Event :=
  let code := dflt code (str "ERROR")
  let status := dflt status (num 400)
  let details := dflt details null
  let meta := dflt meta (literal [])
  let meta := literal ([("endpoint", req.originalUrl), ("method", req.method),
                        ("responseCode", status)] ++ ownProps meta)
  [Event.status status, Event.json (ApiResponse.error message code details meta now)]

/-- `responseMiddleware(req, res, next)`: the response with both helpers attached, and the
call `next()`. -/
def responseMiddleware (req : Req) (res : Res) (next : Next) : Res × Outcome :=
  ({ res with helpers := some req }, { events := next [], thrown := none })

/-- The call `res.error(...)` with evaluated arguments: a TypeError when the helper is not
there. -/
def Res.callError (res : Res) (now : String) (message code status details meta : Val) :
    Outcome :=
  match res.helpers with
  | none => { events := [], thrown := some (typeError "res.error is not a function") }
  | some rq => { events := resError rq now message code status details meta, thrown := none }

/-- The call `res.data(...)` with evaluated arguments. -/
def Res.callData (res : Res) (now : String) (payload meta status : Val) : Outcome :=
  match res.helpers with
  | none => { events := [], thrown := some (typeError "res.data is not a function") }
  | some rq => { events := resData rq now payload meta status, thrown := none }

/-! ## Custom errors -/

/-- The prototype object of a class `cls` extending the class whose prototype is `parent`. -/
def classPrototype (cls : String) (parent : Val) : Val :=
  obj parent [("constructor", fn cls)]

/-- The built-in `new Error(message)` for a class with prototype `proto`: an own `message`,
the string of the argument, unless the argument is `undefined` (the engine's own `stack`
property is left out). It raises what the conversion of the argument raises. -/
def newError (proto : Val) (message : Val) : Except Val Val :=
  match message with
  | undefined => .ok (obj proto [])
  | m =>
    match toStr m with
    | .ok s => .ok (obj proto [("message", str s)])
    | .error e => .error e

/-- The constructor of `AppError`, run for a class with prototype `proto`:
`super(message); this.name = this.constructor.name`. -/
def AppError.construct (proto : Val) (message : Val) : Except Val Val := do
  let this ← newError proto message
  let ctor ← getProp this "constructor"
  let name ← getProp ctor "name"
  pure (obj proto (ownProps this ++ [("name", name)]))

/-- `AppError.prototype`. -/
def AppError.prototype : Val := classPrototype "AppError" errorPrototype

/-- `new AppError(message)`. -/
def AppError (message : Val) : Except Val Val :=
  AppError.construct AppError.prototype message

/-- `new NotFoundError(message)`. -/
def NotFoundError (message : Val) : Except Val Val :=
  AppError.construct (classPrototype "NotFoundError" AppError.prototype) message

/-- `new ValidationError(message)`. -/
def ValidationError (message : Val) : Except Val Val :=
  AppError.construct (classPrototype "ValidationError" AppError.prototype) message

/-- `new UnauthorizedError(message)`. -/
def UnauthorizedError (message : Val) : Except Val Val :=
  AppError.construct (classPrototype "UnauthorizedError" AppError.prototype) message

/-- `new ForbiddenError(message)`. -/
def ForbiddenError (message : Val) : Except Val Val :=
  AppError.construct (classPrototype "ForbiddenError" AppError.prototype) message

/-- A plain `new Error(message)` with a string for message. -/
def plainError (message : String) : Val := obj errorPrototype [("message", str message)]

/-! ## Error registry -/

/-- A registry entry `{ message, code, status }`. -/
def entry (message code : String) (status : Int) : Val :=
  literal [("message", str message), ("code", str code), ("status", num status)]

/-- `ErrorRegistry.map`, keyed by the `name` of the four classes. -/
def ErrorRegistry.map : Val :=
  literal
    [("ValidationError", entry "Invalid or missing data" "VALIDATION_ERROR" 422),
     ("NotFoundError", entry "Resource not found" "NOT_FOUND" 404),
     ("UnauthorizedError", entry "Authentication required" "UNAUTHORIZED" 401),
     ("ForbiddenError", entry "Access denied" "FORBIDDEN" 403)]

/-- `ErrorRegistry.resolve(err)`: `this.map[err.name] || null`. -/
def ErrorRegistry.resolve (err : Val) : Except Val Val := do
  let name ← getProp err "name"
  let key ← toStr name
  let hit ← getProp ErrorRegistry.map key
  pure (if truthy hit then hit else null)

/-! ## Global error handler -/

/-- `errorHandler(err, req, res, next)`. -/
def errorHandler (err : Val) (_req : Req) (res : Res) (_next : Next) (now : String) :
    Outcome :=
  match ErrorRegistry.resolve err with
  | .error e => { events := [], thrown := some e }
  | .ok mapped =>
    if truthy mapped then
      match (do
          let m ← getProp mapped "message"
          let c ← getProp mapped "code"
          let s ← getProp mapped "status"
          let i ← getProp err "message"
          pure (m, c, s, i) : Except Val (Val × Val × Val × Val)) with
      | .error e => { events := [], thrown := some e }
      | .ok (m, c, s, i) => res.callError now m c s null (literal [("internal", i)])
    else
      match getProp err "message" with
      | .error e => { events := [Event.log err], thrown := some e }
      | .ok i =>
        let out := res.callError now (str "An unexpected error occurred")
          (str "INTERNAL_SERVER_ERROR") (num 500) null (literal [("internal", i)])
        { events := Event.log err :: out.events, thrown := out.thrown }

/-! ## Async wrapper -/

/-- How a promise ends: fulfilled with a value, rejected with a reason, or never settled. -/
inductive Settled where
  | fulfilled (v : Val)
  | rejected (reason : Val)
  | pending

/-- What a call of a request handler hands back: a value that is not a thenable, or a promise
(the result of an `async` function), given by the way it settles. -/
inductive Returned where
  | value (v : Val)
  | promise (p : Settled)

/-- One call `fn(req, res, next)` of a request handler: the effects of the handler itself,
and the value it returns or the exception it raises synchronously. -/
structure FnRun where
  events : List Event
  result : Except Val Returned

/-- `Promise.resolve(x)`: a promise is returned as it is, any other value gives a promise
fulfilled with that value. -/
def promiseResolve : Returned → Settled
  | .value v => .fulfilled v
  | .promise p => p

/-- The effects of `p.catch(onRejected)`: `onRejected` runs, once, with the reason, if `p` is
rejected, and not at all otherwise. -/
def promiseCatch (p : Settled) (onRejected : Val → List Event) : List Event :=
  match p with
  | .rejected reason => onRejected reason
  | _ => []

/-- The handler `asyncHandler(fn)`, called with `(req, res, next)`:
`Promise.resolve(fn(req, res, next)).catch(next)`. An exception `fn` raises synchronously
leaves the call before `Promise.resolve` is reached. -/
def asyncHandler (fn : Req → Res → Next → FnRun) (req : Req) (res : Res) (next : Next) :
    Outcome :=
  let run := fn req res next
  match run.result with
  | .error e => { events := run.events, thrown := some e }
  | .ok x =>
    { events := run.events ++ promiseCatch (promiseResolve x) (fun r => next [r]),
      thrown := none }

/-- Whether an effect is a call of `res.status`. -/
def Event.isStatus : Event → Bool
  | .status _ => true
  | _ => false

/-- Whether an effect is a call of `res.json`, the emission of a body. -/
def Event.isJson : Event → Bool
  | .json _ => true
  | _ => false

/-- Whether an effect is a recorded call of `next`. -/
def Event.isNext : Event → Bool
  | .next _ => true
  | _ => false

/-- Reading a nested field `v.k1.k2...`. -/
def getPath (v : Val) : List String → Except Val Val
  | [] => .ok v
  | k :: ks =>
    match getProp v k with
    | .ok w => getPath w ks
    | .error e => .error e

/-! ## Theorems -/

/-- Own-property lookup in a concatenation: the later part wins. -/
theorem lookupOwn_append (a b : List (String × Val)) (k : String) :
    lookupOwn (a ++ b) k = (lookupOwn b k).orElse (fun _ => lookupOwn a k) := by
  induction a with
  | nil => cases h : lookupOwn b k <;> simp [lookupOwn, h]
  | cons p a ih =>
    obtain ⟨k', v⟩ := p
    have step : lookupOwn ((k', v) :: (a ++ b)) k =
        match lookupOwn (a ++ b) k with
        | some w => some w
        | none => if k' = k then some v else none := rfl
    rw [List.cons_append, step, ih]
    cases hb : lookupOwn b k <;> simp [lookupOwn]

/-- A value whose `name` can be read can have its `message` read too. -/
theorem getProp_message_of_name {err n : Val} (h : getProp err "name" = .ok n) :
    ∃ i, getProp err "message" = .ok i := by
  cases err <;> simp [getProp] at h ⊢

/-- C1: for every message string, an instance built by `NotFoundError`, `ValidationError`,
`UnauthorizedError` or `ForbiddenError` resolves through `ErrorRegistry.resolve` to exactly
its fixed entry: ("Resource not found", "NOT_FOUND", 404), ("Invalid or missing data",
"VALIDATION_ERROR", 422), ("Authentication required", "UNAUTHORIZED", 401) and ("Access
denied", "FORBIDDEN", 403) respectively. -/
theorem mapped_errors_resolve_to_fixed_entry (m : String) :
    (NotFoundError (str m) >>= ErrorRegistry.resolve)
        = .ok (entry "Resource not found" "NOT_FOUND" 404)
    ∧ (ValidationError (str m) >>= ErrorRegistry.resolve)
        = .ok (entry "Invalid or missing data" "VALIDATION_ERROR" 422)
    ∧ (UnauthorizedError (str m) >>= ErrorRegistry.resolve)
        = .ok (entry "Authentication required" "UNAUTHORIZED" 401)
    ∧ (ForbiddenError (str m) >>= ErrorRegistry.resolve)
        = .ok (entry "Access denied" "FORBIDDEN" 403) :=
  ⟨rfl, rfl, rfl, rfl⟩

/-- C2, at the failing inputs: an error whose `name` is "constructor" or "toString" is not
resolved to `null`; the lookup in the registry's map reaches `Object.prototype` and
`resolve` returns the inherited function. -/
theorem resolve_inherited_name_not_null :
    ErrorRegistry.resolve
        (obj errorPrototype [("message", str "boom"), ("name", str "constructor")])
      = .ok (builtin .object)
    ∧ ErrorRegistry.resolve
        (obj errorPrototype [("message", str "boom"), ("name", str "toString")])
      = .ok (builtin (.objectMethod "toString"))
    ∧ (AppError.construct (classPrototype "toString" AppError.prototype) (str "boom")
        >>= ErrorRegistry.resolve) = .ok (builtin (.objectMethod "toString")) :=
  ⟨rfl, rfl, rfl⟩

/-- What `errorHandler` does once `resolve` has returned the entry `(msg, code, st)` and the
helpers are attached: one `res.error` call with the entry's fields. -/
theorem errorHandler_of_entry {err i : Val} {msg code : String} {st : Int} (rq req : Req)
    (next : Next) (now : String) (h : ErrorRegistry.resolve err = .ok (entry msg code st))
    (hi : getProp err "message" = .ok i) :
    errorHandler err req { helpers := some rq } next now =
      { events := resError rq now (str msg) (str code) (num st) null
          (literal [("internal", i)]),
        thrown := none } := by
  have hm : getProp (entry msg code st) "message" = .ok (str msg) := rfl
  have hc : getProp (entry msg code st) "code" = .ok (str code) := rfl
  have hs : getProp (entry msg code st) "status" = .ok (num st) := rfl
  have ht : truthy (entry msg code st) = true := rfl
  unfold errorHandler
  rw [h]
  simp only [hm, hc, hs, ht, hi]
  rfl

/-- What `errorHandler` does once `resolve` has returned `null` and the helpers are attached:
the log entry, then one `res.error` call with the generic fields. -/
theorem errorHandler_of_null {err i : Val} (rq req : Req) (next : Next) (now : String)
    (h : ErrorRegistry.resolve err = .ok null) (hi : getProp err "message" = .ok i) :
    errorHandler err req { helpers := some rq } next now =
      { events := Event.log err ::
          resError rq now (str "An unexpected error occurred") (str "INTERNAL_SERVER_ERROR")
            (num 500) null (literal [("internal", i)]),
        thrown := none } := by
  unfold errorHandler
  rw [h]
  simp only [truthy, hi]
  rfl

/-- When `resolve` returns, the `message` of the error can be read. -/
theorem message_of_resolve {err r : Val} (h : ErrorRegistry.resolve err = .ok r) :
    ∃ i, getProp err "message" = .ok i := by
  cases err <;> first
    | exact ⟨_, rfl⟩
    | (simp [ErrorRegistry.resolve, getProp, bind, Except.bind] at h)

/-- The result of `resolve` in terms of the key the error's `name` converts to: the truthy
result of the prototype-chain read of the map at that key, or `null`. -/
theorem resolve_of_name {err n : Val} {key : String} (hn : getProp err "name" = .ok n)
    (hk : toStr n = .ok key) :
    ErrorRegistry.resolve err
      = .ok (if truthy (getFrom objectPrototype ErrorRegistry.map key)
          then getFrom objectPrototype ErrorRegistry.map key else null) := by
  unfold ErrorRegistry.resolve
  rw [hn]
  show (toStr n >>= fun key => _) = _
  rw [hk]
  rfl

/-- When `resolve` returns, the error's `name` was read and converted to a key. -/
theorem name_key_of_resolve {err r : Val} (h : ErrorRegistry.resolve err = .ok r) :
    ∃ n key, getProp err "name" = .ok n ∧ toStr n = .ok key := by
  cases hn : getProp err "name" with
  | error e =>
    unfold ErrorRegistry.resolve at h
    rw [hn] at h
    cases h
  | ok n =>
    cases hk : toStr n with
    | error e =>
      unfold ErrorRegistry.resolve at h
      rw [hn] at h
      have h' : (toStr n >>= fun key => (do
          let hit ← getProp ErrorRegistry.map key
          pure (if truthy hit then hit else null) : Except Val Val)) = .ok r := h
      rw [hk] at h'
      cases h'
    | ok key => exact ⟨n, key, rfl, hk⟩

/-- A primitive value converts to a key without raising. -/
theorem toStr_of_primitive {n : Val} (h : isPrimitive n = true) : ∃ key, toStr n = .ok key := by
  cases n <;> first
    | exact ⟨_, rfl⟩
    | (simp [isPrimitive] at h)

/-- A name that is neither one of the four class names nor a member of `Object.prototype`
resolves to `null`. -/
theorem resolve_null_of_unlisted_name {err n : Val} {key : String}
    (hn : getProp err "name" = .ok n) (hk : toStr n = .ok key)
    (hm : key ∉ ["ValidationError", "NotFoundError", "UnauthorizedError", "ForbiddenError"])
    (hp : key ∉ "constructor" :: "__proto__" :: objectPrototypeMethods) :
    ErrorRegistry.resolve err = .ok null := by
  simp only [List.mem_cons, List.mem_singleton, not_or, objectPrototypeMethods,
    List.not_mem_nil, not_false_eq_true, and_true] at hm hp
  obtain ⟨h1, h2, h3, h4⟩ := hm
  obtain ⟨p1, p2, p3⟩ := hp
  have hown : lookupOwn
      [("ValidationError", entry "Invalid or missing data" "VALIDATION_ERROR" 422),
       ("NotFoundError", entry "Resource not found" "NOT_FOUND" 404),
       ("UnauthorizedError", entry "Authentication required" "UNAUTHORIZED" 401),
       ("ForbiddenError", entry "Access denied" "FORBIDDEN" 403)] key = none := by
    simp [lookupOwn, Ne.symm h1, Ne.symm h2, Ne.symm h3, Ne.symm h4]
  have hhit : getFrom objectPrototype ErrorRegistry.map key = undefined := by
    simp only [ErrorRegistry.map, literal, getFrom, hown]
    simp [p1, p2, objectPrototypeMethods, p3]
  rw [resolve_of_name hn hk, hhit]
  rfl

/-- An entry that `resolve` returns is one of the four entries of the registry. -/
theorem resolve_entry_registered {err : Val} {msg code : String} {st : Int}
    (h : ErrorRegistry.resolve err = .ok (entry msg code st)) :
    (msg, code, st) ∈ [("Invalid or missing data", "VALIDATION_ERROR", (422 : Int)),
      ("Resource not found", "NOT_FOUND", 404),
      ("Authentication required", "UNAUTHORIZED", 401),
      ("Access denied", "FORBIDDEN", 403)] := by
  obtain ⟨n, key, hn, hk⟩ := name_key_of_resolve h
  rw [resolve_of_name hn hk] at h
  simp only [ErrorRegistry.map, literal, getFrom, lookupOwn] at h
  by_cases h4 : "ForbiddenError" = key
  · simp [← h4, truthy, entry, literal] at h
    simp [h]
  · by_cases h3 : "UnauthorizedError" = key
    · simp [← h3, truthy, entry, literal] at h
      simp [h]
    · by_cases h2 : "NotFoundError" = key
      · simp [← h2, truthy, entry, literal] at h
        simp [h]
      · by_cases h1 : "ValidationError" = key
        · simp [← h1, truthy, entry, literal] at h
          simp [h]
        · simp only [h1, h2, h3, h4, if_false] at h
          exfalso
          revert h
          simp only [entry, literal]
          split_ifs <;> simp [truthy]

/-- C4, at the failing input: an error outside the taxonomy whose `name` is "constructor" is
not logged and not answered with 500 / "INTERNAL_SERVER_ERROR". `resolve` hands back the
function `Object`, whose `message`, `code` and `status` are `undefined`, so the trace is one
status 400 and one body with `error.code` "ERROR" and no `error.message`. -/
theorem errorHandler_inherited_name :
    ∃ body,
      errorHandler (obj errorPrototype [("message", str "boom"), ("name", str "constructor")])
          { originalUrl := str "/x", method := str "GET" }
          (responseMiddleware { originalUrl := str "/x", method := str "GET" }
            { helpers := none } nextStage).1 nextStage "2024-05-01T10:00:00.000Z"
        = { events := [Event.status (num 400), Event.json body], thrown := none }
      ∧ getPath body ["error", "message"] = .ok undefined
      ∧ getPath body ["error", "code"] = .ok (str "ERROR")
      ∧ getPath body ["meta", "responseCode"] = .ok (num 400)
      ∧ getPath body ["meta", "internal"] = .ok (str "boom") :=
  ⟨_, rfl, rfl, rfl, rfl, rfl⟩

/-- C3, as amended: for every error that `resolve` maps to an entry `(msg, code, st)` and
every request on which `responseMiddleware` has run, `errorHandler` emits one failure
response with HTTP status `st`, `error.message = msg`, `error.code = code`,
`error.details = null` and `meta.internal` equal to the original message; `error.message` is
the entry's public message whatever the original message is, so it differs from the original
message whenever that one is not the public message itself. -/
theorem errorHandler_mapped_response (err : Val) (msg code : String) (st : Int) (rq req : Req)
    (res0 : Res) (next0 next : Next) (now : String) (h : ErrorRegistry.resolve err = .ok (entry msg code st)) :
    ∃ body,
      errorHandler err req (responseMiddleware rq res0 next0).1 next now
        = { events := [Event.status (num st), Event.json body], thrown := none }
      ∧ getPath body ["error", "message"] = .ok (str msg)
      ∧ getPath body ["error", "code"] = .ok (str code)
      ∧ getPath body ["error", "details"] = .ok null
      ∧ getPath body ["meta", "internal"] = getProp err "message"
      ∧ (getProp err "message" ≠ .ok (str msg) →
          getPath body ["error", "message"] ≠ getProp err "message") := by
  obtain ⟨i, hi⟩ := message_of_resolve h
  refine ⟨ApiResponse.error (str msg) (str code) null
      (literal ([("endpoint", rq.originalUrl), ("method", rq.method),
        ("responseCode", num st)] ++ [("internal", i)])) now, ?_, rfl, rfl, rfl, ?_, ?_⟩
  · rw [show (responseMiddleware rq res0 next0).1 = { helpers := some rq } from rfl,
      errorHandler_of_entry rq req next now h hi]
    rfl
  · rw [hi]
    rfl
  · intro hne heq
    exact hne (heq.symm.trans rfl)

/-- C3, witness: `ValidationError("bad field")` on `POST /items` gives 422,
"VALIDATION_ERROR", "Invalid or missing data" and `meta.internal` "bad field". -/
theorem errorHandler_mapped_response_witness :
    ValidationError (str "bad field")
      = .ok (obj (classPrototype "ValidationError" AppError.prototype)
          [("message", str "bad field"), ("name", str "ValidationError")])
    ∧ ErrorRegistry.resolve
        (obj (classPrototype "ValidationError" AppError.prototype)
          [("message", str "bad field"), ("name", str "ValidationError")])
      = .ok (entry "Invalid or missing data" "VALIDATION_ERROR" 422)
    ∧ getProp (obj (classPrototype "ValidationError" AppError.prototype)
          [("message", str "bad field"), ("name", str "ValidationError")]) "message"
      = .ok (str "bad field")
    ∧ ∃ body,
      errorHandler
          (obj (classPrototype "ValidationError" AppError.prototype)
            [("message", str "bad field"), ("name", str "ValidationError")])
          { originalUrl := str "/items", method := str "POST" }
          (responseMiddleware { originalUrl := str "/items", method := str "POST" }
            { helpers := none } nextStage).1 nextStage "2024-05-01T10:00:00.000Z"
        = { events := [Event.status (num 422), Event.json body], thrown := none }
      ∧ getPath body ["error", "message"] = .ok (str "Invalid or missing data")
      ∧ getPath body ["error", "code"] = .ok (str "VALIDATION_ERROR")
      ∧ getPath body ["error", "details"] = .ok null
      ∧ getPath body ["meta", "internal"]
          = getProp (obj (classPrototype "ValidationError" AppError.prototype)
              [("message", str "bad field"), ("name", str "ValidationError")]) "message"
      ∧ (getProp (obj (classPrototype "ValidationError" AppError.prototype)
              [("message", str "bad field"), ("name", str "ValidationError")]) "message"
            ≠ .ok (str "Invalid or missing data") →
          getPath body ["error", "message"]
            ≠ getProp (obj (classPrototype "ValidationError" AppError.prototype)
              [("message", str "bad field"), ("name", str "ValidationError")]) "message") :=
  ⟨rfl, rfl, rfl,
    errorHandler_mapped_response _ "Invalid or missing data" "VALIDATION_ERROR" 422 _ _ _ _ _ _ rfl⟩

/-- C3, counterexample to "the original message never appears as `error.message`": for
`ValidationError("Invalid or missing data")` the emitted `error.message` is the original
message. -/
theorem original_message_shown_when_it_is_the_public_one :
    ∃ err body,
      ValidationError (str "Invalid or missing data") = .ok err
      ∧ errorHandler err { originalUrl := str "/items", method := str "POST" }
          (responseMiddleware { originalUrl := str "/items", method := str "POST" }
            { helpers := none } nextStage).1 nextStage "2024-05-01T10:00:00.000Z"
        = { events := [Event.status (num 422), Event.json body], thrown := none }
      ∧ getPath body ["error", "message"] = getProp err "message" :=
  ⟨_, _, rfl, rfl, rfl⟩

/-- The unmapped path, where it is reached: for every error for which `resolve` returns
`null`, on a request on which `responseMiddleware` has run, `errorHandler` first logs the
error and then emits one failure response with status 500, `error.message` "An unexpected
error occurred", `error.code` "INTERNAL_SERVER_ERROR", `error.details` `null` and
`meta.internal` equal to the original message. -/
theorem errorHandler_unmapped_response (err : Val) (rq req : Req) (res0 : Res)
    (next0 next : Next) (now : String)
    (h : ErrorRegistry.resolve err = .ok null) :
    ∃ body,
      errorHandler err req (responseMiddleware rq res0 next0).1 next now
        = { events := [Event.log err, Event.status (num 500), Event.json body],
            thrown := none }
      ∧ getPath body ["error", "message"] = .ok (str "An unexpected error occurred")
      ∧ getPath body ["error", "code"] = .ok (str "INTERNAL_SERVER_ERROR")
      ∧ getPath body ["error", "details"] = .ok null
      ∧ getPath body ["meta", "internal"] = getProp err "message" := by
  obtain ⟨i, hi⟩ := message_of_resolve h
  refine ⟨ApiResponse.error (str "An unexpected error occurred")
      (str "INTERNAL_SERVER_ERROR") null
      (literal ([("endpoint", rq.originalUrl), ("method", rq.method),
        ("responseCode", num 500)] ++ [("internal", i)])) now, ?_, rfl, rfl, rfl, ?_⟩
  · rw [show (responseMiddleware rq res0 next0).1 = { helpers := some rq } from rfl,
      errorHandler_of_null rq req next now h hi]
    rfl
  · rw [hi]
    rfl

/-- The unmapped path for a plain `Error("boom")` on `GET /x`. -/
theorem errorHandler_unmapped_response_witness :
    ErrorRegistry.resolve (plainError "boom") = .ok null
    ∧ getProp (plainError "boom") "message" = .ok (str "boom")
    ∧ ∃ body,
      errorHandler (plainError "boom") { originalUrl := str "/x", method := str "GET" }
          (responseMiddleware { originalUrl := str "/x", method := str "GET" }
            { helpers := none } nextStage).1 nextStage "2024-05-01T10:00:00.000Z"
        = { events := [Event.log (plainError "boom"), Event.status (num 500),
              Event.json body],
            thrown := none }
      ∧ getPath body ["error", "message"] = .ok (str "An unexpected error occurred")
      ∧ getPath body ["error", "code"] = .ok (str "INTERNAL_SERVER_ERROR")
      ∧ getPath body ["error", "details"] = .ok null
      ∧ getPath body ["meta", "internal"] = getProp (plainError "boom") "message" :=
  ⟨rfl, rfl, errorHandler_unmapped_response _ _ _ _ _ _ _ rfl⟩

/-- The base kind and a plain `Error` are not mapped, whatever their message. -/
theorem base_and_plain_errors_unmapped (m : String) :
    (AppError (str m) >>= ErrorRegistry.resolve) = .ok null
    ∧ ErrorRegistry.resolve (plainError m) = .ok null :=
  ⟨rfl, rfl⟩

/-- The own keys of a two-property object literal. -/
theorem hasOwn_pair (k1 k2 k : String) (v1 v2 : Val) :
    hasOwn (literal [(k1, v1), (k2, v2)]) k = true ↔ k = k1 ∨ k = k2 := by
  by_cases h2 : k2 = k
  · simp [literal, hasOwn, lookupOwn, h2]
  · by_cases h1 : k1 = k
    · simp [literal, hasOwn, lookupOwn, h1, h2]
    · have h1' : ¬ k = k1 := fun h => h1 h.symm
      have h2' : ¬ k = k2 := fun h => h2 h.symm
      simp [literal, hasOwn, lookupOwn, h1, h2, h1', h2']

/-- C5: for every payload, caller meta object and status, `res.data(payload, meta, status)`,
as `responseMiddleware` installs it, sets the HTTP status to `status` (200 when it is omitted)
and emits one body, the success envelope: its own keys are `data` and `meta`, `data` is the
payload, and the own properties of `meta` are the caller's over the base `{endpoint, method,
responseCode: status}` (and the fresh `timestamp`). Read from the emitted body, a key the
caller has carries the caller's value and a base key the caller has not carries its default.
The body is `ApiResponse.success(payload, merged)` for the merged metadata, and with `meta`
omitted the metadata is the base. -/
theorem resData_emits_success_with_merged_meta (rq : Req) (res0 : Res) (next0 : Next)
    (now : String) (payload status proto : Val) (props : List (String × Val)) :
    ∃ s body M merged body0,
      (status = undefined → s = num 200) ∧ (status ≠ undefined → s = status)
      ∧ (responseMiddleware rq res0 next0).1.callData now payload (obj proto props) status
          = { events := [Event.status s, Event.json body], thrown := none }
      ∧ (∀ k, hasOwn body k = true ↔ k = "data" ∨ k = "meta")
      ∧ getProp body "data" = .ok payload
      ∧ getProp body "meta" = .ok M
      ∧ (∀ k, lookupOwn (ownProps M) k
          = (lookupOwn props k).orElse (fun _ =>
              lookupOwn [("timestamp", str now), ("endpoint", rq.originalUrl),
                ("method", rq.method), ("responseCode", s)] k))
      ∧ (∀ k v, lookupOwn props k = some v → getPath body ["meta", k] = .ok v)
      ∧ (lookupOwn props "endpoint" = none →
          getPath body ["meta", "endpoint"] = .ok rq.originalUrl)
      ∧ (lookupOwn props "method" = none → getPath body ["meta", "method"] = .ok rq.method)
      ∧ (lookupOwn props "responseCode" = none →
          getPath body ["meta", "responseCode"] = .ok s)
      ∧ body = ApiResponse.success payload merged now
      ∧ (∀ k, lookupOwn (ownProps merged) k
          = (lookupOwn props k).orElse (fun _ =>
              lookupOwn [("endpoint", rq.originalUrl), ("method", rq.method),
                ("responseCode", s)] k))
      ∧ (responseMiddleware rq res0 next0).1.callData now payload undefined status
          = { events := [Event.status s, Event.json body0], thrown := none }
      ∧ getProp body0 "data" = .ok payload
      ∧ getPath body0 ["meta", "endpoint"] = .ok rq.originalUrl
      ∧ getPath body0 ["meta", "method"] = .ok rq.method
      ∧ getPath body0 ["meta", "responseCode"] = .ok s
      ∧ getPath body0 ["meta", "timestamp"] = .ok (str now) := by
  have key : ∀ k, lookupOwn ([("timestamp", str now), ("endpoint", rq.originalUrl),
        ("method", rq.method), ("responseCode", dflt status (num 200))] ++ props) k
      = (lookupOwn props k).orElse (fun _ =>
          lookupOwn [("timestamp", str now), ("endpoint", rq.originalUrl),
            ("method", rq.method), ("responseCode", dflt status (num 200))] k) :=
    fun k => lookupOwn_append _ _ k
  have read : ∀ k v,
      lookupOwn ([("timestamp", str now), ("endpoint", rq.originalUrl),
        ("method", rq.method), ("responseCode", dflt status (num 200))] ++ props) k = some v →
      getPath (ApiResponse.success payload
        (literal ([("endpoint", rq.originalUrl), ("method", rq.method),
          ("responseCode", dflt status (num 200))] ++ props)) now) ["meta", k] = .ok v := by
    intro k v hk
    show getPath (literal ([("timestamp", str now), ("endpoint", rq.originalUrl),
        ("method", rq.method), ("responseCode", dflt status (num 200))] ++ props)) [k] = _
    simp only [getPath, literal, getProp, getFrom, hk]
  refine ⟨dflt status (num 200),
    ApiResponse.success payload
      (literal ([("endpoint", rq.originalUrl), ("method", rq.method),
        ("responseCode", dflt status (num 200))] ++ props)) now,
    literal ([("timestamp", str now), ("endpoint", rq.originalUrl), ("method", rq.method),
      ("responseCode", dflt status (num 200))] ++ props),
    literal ([("endpoint", rq.originalUrl), ("method", rq.method),
      ("responseCode", dflt status (num 200))] ++ props),
    ApiResponse.success payload
      (literal [("endpoint", rq.originalUrl), ("method", rq.method),
        ("responseCode", dflt status (num 200))]) now,
    ?_, ?_, rfl, fun k => hasOwn_pair _ _ k _ _, rfl, rfl, key, ?_, ?_, ?_, ?_, rfl,
    fun k => lookupOwn_append _ _ k, rfl, rfl, rfl, rfl, rfl, rfl⟩
  · rintro rfl
    rfl
  · intro hs
    cases status <;> first | rfl | exact absurd rfl hs
  · intro k v hk
    refine read k v ?_
    rw [key k, hk]
    rfl
  · intro hk
    refine read "endpoint" _ ?_
    rw [key "endpoint", hk]
    rfl
  · intro hk
    refine read "method" _ ?_
    rw [key "method", hk]
    rfl
  · intro hk
    refine read "responseCode" _ ?_
    rw [key "responseCode", hk]
    rfl

/-- C5, the spec's example: `data({x: "a"}, {responseCode: 999})` on `GET /foo` sets status 200
and emits a body with `data.x` "a", `meta.responseCode` 999, `meta.method` "GET" and
`meta.endpoint` "/foo". -/
theorem resData_caller_override_example :
    ∃ body,
      (responseMiddleware { originalUrl := str "/foo", method := str "GET" }
          { helpers := none } nextStage).1.callData "2024-05-01T10:00:00.000Z"
          (literal [("x", str "a")]) (literal [("responseCode", num 999)]) undefined
        = { events := [Event.status (num 200), Event.json body], thrown := none }
      ∧ getPath body ["data", "x"] = .ok (str "a")
      ∧ getPath body ["meta", "responseCode"] = .ok (num 999)
      ∧ getPath body ["meta", "method"] = .ok (str "GET")
      ∧ getPath body ["meta", "endpoint"] = .ok (str "/foo")
      ∧ getPath body ["meta", "timestamp"] = .ok (str "2024-05-01T10:00:00.000Z") :=
  ⟨_, rfl, rfl, rfl, rfl, rfl, rfl⟩

/-- C6: for every message, code, status, details and caller meta object,
`res.error(message, code, status, details, meta)`, as `responseMiddleware` installs it, sets
the HTTP status to `status` and emits
`ApiResponse.error(message, code, details, merged)`, where the own properties of `merged` are
the caller's over the base `{endpoint, method, responseCode: status}`; an omitted code is
"ERROR", an omitted status 400, omitted details `null` and an omitted meta empty. -/
theorem resError_emits_failure_with_merged_meta (rq : Req) (res0 : Res) (next0 : Next)
    (now : String) (message code status details proto : Val) (props : List (String × Val)) :
    ∃ c s d merged,
      (code = undefined → c = str "ERROR") ∧ (code ≠ undefined → c = code)
      ∧ (status = undefined → s = num 400) ∧ (status ≠ undefined → s = status)
      ∧ (details = undefined → d = null) ∧ (details ≠ undefined → d = details)
      ∧ (responseMiddleware rq res0 next0).1.callError now message code status details
            (obj proto props)
          = { events := [Event.status s, Event.json (ApiResponse.error message c d merged now)],
              thrown := none }
      ∧ (∀ k, lookupOwn (ownProps merged) k
          = (lookupOwn props k).orElse (fun _ =>
              lookupOwn [("endpoint", rq.originalUrl), ("method", rq.method),
                ("responseCode", s)] k))
      ∧ (responseMiddleware rq res0 next0).1.callError now message code status details
            undefined
          = { events := [Event.status s, Event.json (ApiResponse.error message c d
                (literal [("endpoint", rq.originalUrl), ("method", rq.method),
                  ("responseCode", s)]) now)],
              thrown := none }
      ∧ (responseMiddleware rq res0 next0).1.callError now message undefined undefined
            undefined undefined
          = { events := [Event.status (num 400),
                Event.json (ApiResponse.error message (str "ERROR") null
                  (literal [("endpoint", rq.originalUrl), ("method", rq.method),
                    ("responseCode", num 400)]) now)],
              thrown := none } := by
  refine ⟨dflt code (str "ERROR"), dflt status (num 400), dflt details null,
    literal ([("endpoint", rq.originalUrl), ("method", rq.method),
      ("responseCode", dflt status (num 400))] ++ props),
    ?_, ?_, ?_, ?_, ?_, ?_, rfl, fun k => lookupOwn_append _ _ k, rfl, rfl⟩
  · rintro rfl
    rfl
  · intro hs
    cases code <;> first | rfl | exact absurd rfl hs
  · rintro rfl
    rfl
  · intro hs
    cases status <;> first | rfl | exact absurd rfl hs
  · rintro rfl
    rfl
  · intro hs
    cases details <;> first | rfl | exact absurd rfl hs

/-- C6, an example: `error("nope", "E_X", 409, {field: "a"}, {responseCode: 1})` on
`PUT /things` sets status 409 and emits the failure envelope with the caller's
`responseCode` and the base `endpoint` and `method`. -/
theorem resError_example :
    ∃ body,
      (responseMiddleware { originalUrl := str "/things", method := str "PUT" }
          { helpers := none } nextStage).1.callError "2024-05-01T10:00:00.000Z"
          (str "nope") (str "E_X") (num 409) (literal [("field", str "a")])
          (literal [("responseCode", num 1)])
        = { events := [Event.status (num 409), Event.json body], thrown := none }
      ∧ getPath body ["error", "message"] = .ok (str "nope")
      ∧ getPath body ["error", "code"] = .ok (str "E_X")
      ∧ getPath body ["error", "details", "field"] = .ok (str "a")
      ∧ getPath body ["meta", "responseCode"] = .ok (num 1)
      ∧ getPath body ["meta", "method"] = .ok (str "PUT")
      ∧ getPath body ["meta", "endpoint"] = .ok (str "/things") :=
  ⟨_, rfl, rfl, rfl, rfl, rfl, rfl, rfl⟩

/-- C8: for every message `m`, code `c`, details `det` and extra metadata,
`ApiResponse.error(m, c, det, extra)` has `error.message = m`, `error.code = c` and
`error.details = det`; a code that is not supplied gives `error.code` "ERROR" and details
that are not supplied give `error.details` `null`. -/
theorem apiResponse_error_fields (m c det extra : Val) (now : String) :
    getPath (ApiResponse.error m c det extra now) ["error", "message"] = .ok m
    ∧ (c ≠ undefined → getPath (ApiResponse.error m c det extra now) ["error", "code"] = .ok c)
    ∧ (det ≠ undefined →
        getPath (ApiResponse.error m c det extra now) ["error", "details"] = .ok det)
    ∧ getPath (ApiResponse.error m undefined det extra now) ["error", "code"]
        = .ok (str "ERROR")
    ∧ getPath (ApiResponse.error m c undefined extra now) ["error", "details"] = .ok null := by
  refine ⟨rfl, ?_, ?_, rfl, rfl⟩
  · intro hc
    cases c <;> first | rfl | exact absurd rfl hc
  · intro hd
    cases det <;> first | rfl | exact absurd rfl hd

/-- C8, an example: `ApiResponse.error("m", "E42", {why: "x"}, {})`. -/
theorem apiResponse_error_fields_example :
    getPath (ApiResponse.error (str "m") (str "E42") (literal [("why", str "x")]) (literal [])
        "2024-05-01T10:00:00.000Z") ["error", "message"] = .ok (str "m")
    ∧ (str "E42" ≠ undefined →
        getPath (ApiResponse.error (str "m") (str "E42") (literal [("why", str "x")])
          (literal []) "2024-05-01T10:00:00.000Z") ["error", "code"] = .ok (str "E42"))
    ∧ (literal [("why", str "x")] ≠ undefined →
        getPath (ApiResponse.error (str "m") (str "E42") (literal [("why", str "x")])
          (literal []) "2024-05-01T10:00:00.000Z") ["error", "details"]
          = .ok (literal [("why", str "x")]))
    ∧ getPath (ApiResponse.error (str "m") undefined (literal [("why", str "x")]) (literal [])
        "2024-05-01T10:00:00.000Z") ["error", "code"] = .ok (str "ERROR")
    ∧ getPath (ApiResponse.error (str "m") (str "E42") undefined (literal [])
        "2024-05-01T10:00:00.000Z") ["error", "details"] = .ok null :=
  apiResponse_error_fields (str "m") (str "E42") (literal [("why", str "x")]) (literal [])
    "2024-05-01T10:00:00.000Z"

/-- C9: for every payload `d` and extra metadata object, `ApiResponse.success(d, extra)` is
exactly `{data: d, meta: M}`, where the own properties of `M` are those of `extra` over
`{timestamp: now}`, `now` being the ISO string of the clock at the call: every key of `extra`
is in `M` with the value `extra` gives it, a `timestamp` in `extra` replaces the fresh one,
and with `extra` empty or omitted `M` is exactly the fresh timestamp. -/
theorem apiResponse_success_envelope (d proto : Val) (props : List (String × Val))
    (now : String) :
    ∃ M,
      ApiResponse.success d (obj proto props) now = literal [("data", d), ("meta", M)]
      ∧ (∀ k, lookupOwn (ownProps M) k
          = (lookupOwn props k).orElse (fun _ =>
              if k = "timestamp" then some (str now) else none))
      ∧ (∀ k v, lookupOwn props k = some v → getProp M k = .ok v)
      ∧ (∀ v, lookupOwn props "timestamp" = some v → getProp M "timestamp" = .ok v)
      ∧ (lookupOwn props "timestamp" = none → getProp M "timestamp" = .ok (str now))
      ∧ ApiResponse.success d (literal []) now
          = literal [("data", d), ("meta", literal [("timestamp", str now)])]
      ∧ ApiResponse.success d undefined now
          = literal [("data", d), ("meta", literal [("timestamp", str now)])] := by
  have key : ∀ k, lookupOwn ([("timestamp", str now)] ++ props) k
      = (lookupOwn props k).orElse (fun _ =>
          if k = "timestamp" then some (str now) else none) := by
    intro k
    rw [lookupOwn_append]
    cases lookupOwn props k
    · by_cases hk : k = "timestamp"
      · subst hk
        rfl
      · have hk' : ¬ "timestamp" = k := fun h => hk h.symm
        simp [lookupOwn, hk, hk']
    · rfl
  have own : ∀ k v, lookupOwn props k = some v →
      getProp (literal ([("timestamp", str now)] ++ props)) k = .ok v := by
    intro k v hk
    have := key k
    rw [hk] at this
    simp only [literal, getProp, getFrom, this, Option.orElse]
  refine ⟨literal ([("timestamp", str now)] ++ props), rfl, key, own,
    fun v hv => own "timestamp" v hv, ?_, rfl, rfl⟩
  intro hk
  have := key "timestamp"
  rw [hk] at this
  simp only [literal, getProp, getFrom, this, Option.orElse]
  rfl

/-- C9, an example: `success({id: 7}, {timestamp: "mine", page: 2})` keeps the caller's
`timestamp` and `page`. -/
theorem apiResponse_success_example :
    getPath (ApiResponse.success (literal [("id", num 7)])
        (literal [("timestamp", str "mine"), ("page", num 2)]) "2024-05-01T10:00:00.000Z")
      ["data", "id"] = .ok (num 7)
    ∧ getPath (ApiResponse.success (literal [("id", num 7)])
        (literal [("timestamp", str "mine"), ("page", num 2)]) "2024-05-01T10:00:00.000Z")
      ["meta", "timestamp"] = .ok (str "mine")
    ∧ getPath (ApiResponse.success (literal [("id", num 7)])
        (literal [("timestamp", str "mine"), ("page", num 2)]) "2024-05-01T10:00:00.000Z")
      ["meta", "page"] = .ok (num 2)
    ∧ getPath (ApiResponse.success (literal [("id", num 7)]) (literal [])
        "2024-05-01T10:00:00.000Z") ["meta", "timestamp"]
      = .ok (str "2024-05-01T10:00:00.000Z") :=
  ⟨rfl, rfl, rfl, rfl⟩

/-- Reading a key other than `internal` from metadata that ends with the `internal` entry
does not see that entry. -/
theorem getProp_literal_internal_last (l : List (String × Val)) (i : Val) (k : String)
    (hk : k ≠ "internal") :
    getProp (literal (l ++ [("internal", i)])) k = getProp (literal l) k := by
  have hk' : ¬ "internal" = k := fun h => hk h.symm
  have : lookupOwn (l ++ [("internal", i)]) k = lookupOwn l k := by
    rw [lookupOwn_append]
    simp [lookupOwn, hk']
  simp only [literal, getProp, getFrom, this]

/-- C10, as amended: for every unmapped error the status (500), the `error` object of the body
and every metadata entry other than `internal` do not depend on the original message: two
unmapped errors give the same status, the same `error` and the same `meta` apart from
`meta.internal`, which carries each error's own message; the error itself goes to the
server-side log. -/
theorem errorHandler_unmapped_masks_all_but_internal (e1 e2 : Val) (rq req : Req) (res0 : Res)
    (next0 next : Next) (now : String) (h1 : ErrorRegistry.resolve e1 = .ok null)
    (h2 : ErrorRegistry.resolve e2 = .ok null) :
    ∃ b1 b2,
      errorHandler e1 req (responseMiddleware rq res0 next0).1 next now
        = { events := [Event.log e1, Event.status (num 500), Event.json b1], thrown := none }
      ∧ errorHandler e2 req (responseMiddleware rq res0 next0).1 next now
        = { events := [Event.log e2, Event.status (num 500), Event.json b2], thrown := none }
      ∧ getProp b1 "error" = getProp b2 "error"
      ∧ (∀ k, k ≠ "internal" → getPath b1 ["meta", k] = getPath b2 ["meta", k])
      ∧ getPath b1 ["meta", "internal"] = getProp e1 "message"
      ∧ getPath b2 ["meta", "internal"] = getProp e2 "message" := by
  obtain ⟨i1, hi1⟩ := message_of_resolve h1
  obtain ⟨i2, hi2⟩ := message_of_resolve h2
  have hres : (responseMiddleware rq res0 next0).1 = { helpers := some rq } := rfl
  have hmeta : ∀ (i : Val) (k : String), k ≠ "internal" →
      getPath (ApiResponse.error (str "An unexpected error occurred")
        (str "INTERNAL_SERVER_ERROR") null
        (literal ([("endpoint", rq.originalUrl), ("method", rq.method),
          ("responseCode", num 500)] ++ [("internal", i)])) now) ["meta", k]
      = getPath (literal [("timestamp", str now), ("endpoint", rq.originalUrl),
          ("method", rq.method), ("responseCode", num 500)]) [k] := by
    intro i k hk
    have := getProp_literal_internal_last [("timestamp", str now),
      ("endpoint", rq.originalUrl), ("method", rq.method), ("responseCode", num 500)] i k hk
    show getPath (literal ([("timestamp", str now), ("endpoint", rq.originalUrl),
      ("method", rq.method), ("responseCode", num 500)] ++ [("internal", i)])) [k] = _
    simp only [getPath, this]
  refine ⟨ApiResponse.error (str "An unexpected error occurred")
      (str "INTERNAL_SERVER_ERROR") null
      (literal ([("endpoint", rq.originalUrl), ("method", rq.method),
        ("responseCode", num 500)] ++ [("internal", i1)])) now,
    ApiResponse.error (str "An unexpected error occurred")
      (str "INTERNAL_SERVER_ERROR") null
      (literal ([("endpoint", rq.originalUrl), ("method", rq.method),
        ("responseCode", num 500)] ++ [("internal", i2)])) now, ?_, ?_, rfl, ?_, ?_, ?_⟩
  · rw [hres, errorHandler_of_null rq req next now h1 hi1]
    rfl
  · rw [hres, errorHandler_of_null rq req next now h2 hi2]
    rfl
  · intro k hk
    rw [hmeta i1 k hk, hmeta i2 k hk]
  · rw [hi1]
    rfl
  · rw [hi2]
    rfl

/-- C10, witness: plain errors "disk full" and "db password wrong" on `GET /x`. -/
theorem errorHandler_unmapped_masks_all_but_internal_witness :
    ErrorRegistry.resolve (plainError "disk full") = .ok null
    ∧ ErrorRegistry.resolve (plainError "db password wrong") = .ok null
    ∧ ∃ b1 b2,
      errorHandler (plainError "disk full")
          { originalUrl := str "/x", method := str "GET" }
          (responseMiddleware { originalUrl := str "/x", method := str "GET" }
            { helpers := none } nextStage).1 nextStage "2024-05-01T10:00:00.000Z"
        = { events := [Event.log (plainError "disk full"), Event.status (num 500),
              Event.json b1], thrown := none }
      ∧ errorHandler (plainError "db password wrong")
          { originalUrl := str "/x", method := str "GET" }
          (responseMiddleware { originalUrl := str "/x", method := str "GET" }
            { helpers := none } nextStage).1 nextStage "2024-05-01T10:00:00.000Z"
        = { events := [Event.log (plainError "db password wrong"),
              Event.status (num 500), Event.json b2], thrown := none }
      ∧ getProp b1 "error" = getProp b2 "error"
      ∧ (∀ k, k ≠ "internal" → getPath b1 ["meta", k] = getPath b2 ["meta", k])
      ∧ getPath b1 ["meta", "internal"] = getProp (plainError "disk full") "message"
      ∧ getPath b2 ["meta", "internal"]
          = getProp (plainError "db password wrong") "message" :=
  ⟨rfl, rfl, errorHandler_unmapped_masks_all_but_internal _ _ _ _ _ _ _ _ rfl rfl⟩

/-- C10, counterexample: two plain errors that differ only in their message, "a" and "b",
both unmapped, handled for the same request at the same time, give different response
bodies: `meta.internal` is "a" in one and "b" in the other. -/
theorem unmapped_response_body_depends_on_message :
    ∃ b1 b2,
      ErrorRegistry.resolve (plainError "a") = .ok null
      ∧ ErrorRegistry.resolve (plainError "b") = .ok null
      ∧ errorHandler (plainError "a") { originalUrl := str "/x", method := str "GET" }
          (responseMiddleware { originalUrl := str "/x", method := str "GET" }
            { helpers := none } nextStage).1 nextStage "2024-05-01T10:00:00.000Z"
        = { events := [Event.log (plainError "a"), Event.status (num 500),
              Event.json b1], thrown := none }
      ∧ errorHandler (plainError "b") { originalUrl := str "/x", method := str "GET" }
          (responseMiddleware { originalUrl := str "/x", method := str "GET" }
            { helpers := none } nextStage).1 nextStage "2024-05-01T10:00:00.000Z"
        = { events := [Event.log (plainError "b"), Event.status (num 500),
              Event.json b2], thrown := none }
      ∧ getPath b1 ["meta", "internal"] = .ok (str "a")
      ∧ getPath b2 ["meta", "internal"] = .ok (str "b")
      ∧ b1 ≠ b2 := by
  refine ⟨_, _, rfl, rfl, rfl, rfl, rfl, rfl, ?_⟩
  intro h
  have hp := congrArg (fun b => getPath b ["meta", "internal"]) h
  have hab : (Except.ok (str "a") : Except Val Val) = Except.ok (str "b") := hp
  exact absurd (Val.str.inj (Except.ok.inj hab)) (by decide)

/-- C7: for every handler `fn` and request, the handler returned by `asyncHandler(fn)` runs
`fn` once with `(req, res, next)` (the effects of that one run come first); if the promise
`fn` returns is rejected with reason `r`, the adapter then calls `next` exactly once, with
`r`; if it is fulfilled, or `fn` returns a plain value, the adapter calls nothing and raises
nothing. -/
theorem asyncHandler_forwards_rejection_only (fn : Req → Res → Next → FnRun) (req : Req)
    (res : Res) (next : Next) :
    (∀ r, (fn req res next).result = .ok (.promise (.rejected r)) →
        asyncHandler fn req res next
          = { events := (fn req res next).events ++ next [r], thrown := none })
    ∧ (∀ v, (fn req res next).result = .ok (.promise (.fulfilled v)) →
        asyncHandler fn req res next
          = { events := (fn req res next).events, thrown := none })
    ∧ (∀ v, (fn req res next).result = .ok (.value v) →
        asyncHandler fn req res next
          = { events := (fn req res next).events, thrown := none }) := by
  refine ⟨?_, ?_, ?_⟩ <;> intro x hx <;>
    simp [asyncHandler, hx, promiseResolve, promiseCatch]

/-- C7, an example: a handler that answers nothing and returns a promise rejected with
`ValidationError("bad field")` makes the adapter call `next` once with that error; the same
handler with a fulfilled promise makes the adapter call nothing. -/
theorem asyncHandler_example :
    asyncHandler
        (fun _ _ _ => { events := [],
                        result := .ok (.promise (.rejected
                          (obj (classPrototype "ValidationError" AppError.prototype)
                            [("message", str "bad field"),
                             ("name", str "ValidationError")]))) })
        { originalUrl := str "/items", method := str "POST" } { helpers := none } nextStage
      = { events := [Event.next [obj (classPrototype "ValidationError" AppError.prototype)
            [("message", str "bad field"), ("name", str "ValidationError")]]],
          thrown := none }
    ∧ asyncHandler
        (fun _ _ _ => { events := [], result := .ok (.promise (.fulfilled undefined)) })
        { originalUrl := str "/items", method := str "POST" } { helpers := none } nextStage
      = { events := [], thrown := none } :=
  ⟨rfl, rfl⟩

/-- The `timestamp` of metadata built as `{timestamp: now, ...pre, ...props}`, where `pre` has
no `timestamp`: the key is there, with the value `props` gives it, or `now` if it gives
none. -/
theorem timestamp_of_built_meta (pre props : List (String × Val)) (now : String)
    (hpre : lookupOwn pre "timestamp" = none) :
    hasOwn (literal ([("timestamp", str now)] ++ (pre ++ props))) "timestamp" = true
    ∧ getProp (literal ([("timestamp", str now)] ++ (pre ++ props))) "timestamp"
        = .ok ((lookupOwn props "timestamp").getD (str now)) := by
  have key : lookupOwn ([("timestamp", str now)] ++ (pre ++ props)) "timestamp"
      = some ((lookupOwn props "timestamp").getD (str now)) := by
    rw [lookupOwn_append, lookupOwn_append, hpre]
    cases lookupOwn props "timestamp" <;> simp [lookupOwn]
  constructor
  · simp only [literal, hasOwn, key, Option.isSome]
  · simp only [literal, getProp, getFrom, key]

/-- C11, as amended: every envelope the module produces (by `ApiResponse.success` or
`ApiResponse.error` directly, or through `res.data` / `res.error`) has a `meta.timestamp`;
its value is the moment of construction `now` when the caller's metadata has no `timestamp`
of its own or is omitted, and the caller's `timestamp` value otherwise. -/
theorem envelope_timestamp_fresh_unless_caller_sets_it (rq : Req) (res0 : Res) (next0 : Next)
    (now : String) (d m c det status proto : Val) (props : List (String × Val)) :
    (∃ M, getProp (ApiResponse.success d (obj proto props) now) "meta" = .ok M
      ∧ hasOwn M "timestamp" = true
      ∧ getProp M "timestamp" = .ok ((lookupOwn props "timestamp").getD (str now)))
    ∧ (∃ M, getProp (ApiResponse.error m c det (obj proto props) now) "meta" = .ok M
      ∧ hasOwn M "timestamp" = true
      ∧ getProp M "timestamp" = .ok ((lookupOwn props "timestamp").getD (str now)))
    ∧ (∃ s body M,
        (responseMiddleware rq res0 next0).1.callData now d (obj proto props) status
          = { events := [Event.status s, Event.json body], thrown := none }
        ∧ getProp body "meta" = .ok M ∧ hasOwn M "timestamp" = true
        ∧ getProp M "timestamp" = .ok ((lookupOwn props "timestamp").getD (str now)))
    ∧ (∃ s body M,
        (responseMiddleware rq res0 next0).1.callError now m c status det (obj proto props)
          = { events := [Event.status s, Event.json body], thrown := none }
        ∧ getProp body "meta" = .ok M ∧ hasOwn M "timestamp" = true
        ∧ getProp M "timestamp" = .ok ((lookupOwn props "timestamp").getD (str now)))
    ∧ getPath (ApiResponse.success d undefined now) ["meta", "timestamp"] = .ok (str now)
    ∧ getPath (ApiResponse.error m c det undefined now) ["meta", "timestamp"] = .ok (str now)
    ∧ (∃ s body,
        (responseMiddleware rq res0 next0).1.callData now d undefined status
          = { events := [Event.status s, Event.json body], thrown := none }
        ∧ getPath body ["meta", "timestamp"] = .ok (str now))
    ∧ (∃ s body,
        (responseMiddleware rq res0 next0).1.callError now m c status det undefined
          = { events := [Event.status s, Event.json body], thrown := none }
        ∧ getPath body ["meta", "timestamp"] = .ok (str now)) := by
  have direct := timestamp_of_built_meta [] props now rfl
  have viaData := timestamp_of_built_meta
    [("endpoint", rq.originalUrl), ("method", rq.method),
      ("responseCode", dflt status (num 200))] props now rfl
  have viaError := timestamp_of_built_meta
    [("endpoint", rq.originalUrl), ("method", rq.method),
      ("responseCode", dflt status (num 400))] props now rfl
  exact ⟨⟨_, rfl, direct.1, direct.2⟩, ⟨_, rfl, direct.1, direct.2⟩,
    ⟨_, _, _, rfl, rfl, viaData.1, viaData.2⟩, ⟨_, _, _, rfl, rfl, viaError.1, viaError.2⟩,
    rfl, rfl, ⟨_, _, rfl, rfl⟩, ⟨_, _, rfl, rfl⟩⟩

/-- C11, counterexample: `ApiResponse.success(1, {timestamp: "1999-01-01T00:00:00.000Z"})`
built at "2024-05-01T10:00:00.000Z" has `meta.timestamp` "1999-01-01T00:00:00.000Z", which is
not the moment of construction; the same holds through `res.data`. -/
theorem caller_timestamp_replaces_construction_time :
    getPath (ApiResponse.success (num 1)
        (literal [("timestamp", str "1999-01-01T00:00:00.000Z")]) "2024-05-01T10:00:00.000Z")
      ["meta", "timestamp"] = .ok (str "1999-01-01T00:00:00.000Z")
    ∧ (∃ body,
        (responseMiddleware { originalUrl := str "/foo", method := str "GET" }
            { helpers := none } nextStage).1.callData "2024-05-01T10:00:00.000Z" (num 1)
            (literal [("timestamp", str "1999-01-01T00:00:00.000Z")]) undefined
          = { events := [Event.status (num 200), Event.json body], thrown := none }
        ∧ getPath body ["meta", "timestamp"] = .ok (str "1999-01-01T00:00:00.000Z"))
    ∧ str "1999-01-01T00:00:00.000Z" ≠ str "2024-05-01T10:00:00.000Z" :=
  ⟨rfl, ⟨_, rfl, rfl⟩, fun h => absurd (Val.str.inj h) (by decide)⟩

/-- C12: for all inputs, the envelope of `ApiResponse.error` has exactly the top-level keys
`error` and `meta`, so no `data`, and the envelope of `ApiResponse.success` has exactly the
top-level keys `data` and `meta`, so no `error`; neither has both `data` and `error`. -/
theorem envelope_top_level_keys (d m c det extra : Val) (now : String) :
    (∀ k, hasOwn (ApiResponse.error m c det extra now) k = true ↔ k = "error" ∨ k = "meta")
    ∧ hasOwn (ApiResponse.error m c det extra now) "data" = false
    ∧ getProp (ApiResponse.error m c det extra now) "data" = .ok undefined
    ∧ (∀ k, hasOwn (ApiResponse.success d extra now) k = true ↔ k = "data" ∨ k = "meta")
    ∧ hasOwn (ApiResponse.success d extra now) "error" = false
    ∧ getProp (ApiResponse.success d extra now) "error" = .ok undefined
    ∧ ¬ (hasOwn (ApiResponse.error m c det extra now) "data" = true
        ∧ hasOwn (ApiResponse.error m c det extra now) "error" = true)
    ∧ ¬ (hasOwn (ApiResponse.success d extra now) "data" = true
        ∧ hasOwn (ApiResponse.success d extra now) "error" = true) := by
  have he : hasOwn (ApiResponse.error m c det extra now) "data" = false := rfl
  have hs : hasOwn (ApiResponse.success d extra now) "error" = false := rfl
  refine ⟨fun k => hasOwn_pair _ _ k _ _, he, rfl, fun k => hasOwn_pair _ _ k _ _, hs, rfl,
    ?_, ?_⟩
  · rw [he]
    simp
  · rw [hs]
    simp

/-- C15: for every request and response context, `responseMiddleware` attaches the helpers
(closed over that request) to the response, calls `next` exactly once, with no argument, and
does nothing else: its effects are those of that one call, so it sets no status and emits
no body, and it raises nothing. -/
theorem responseMiddleware_attaches_and_continues (req : Req) (res : Res) (next : Next) :
    (responseMiddleware req res next).1.helpers = some req
    ∧ (responseMiddleware req res next).2 = { events := next [], thrown := none }
    ∧ (responseMiddleware req res nextStage).2.events = [Event.next []]
    ∧ (∀ (now : String) (payload meta status : Val),
        (responseMiddleware req res next).1.callData now payload meta status
          = { events := resData req now payload meta status, thrown := none })
    ∧ (∀ (now : String) (message code status details meta : Val),
        (responseMiddleware req res next).1.callError now message code status details meta
          = { events := resError req now message code status details meta,
              thrown := none }) :=
  ⟨rfl, rfl, rfl, fun _ _ _ _ => rfl, fun _ _ _ _ _ _ => rfl⟩

/-- C18: when `fn` raises `e` synchronously, the handler returned by `asyncHandler(fn)` does
not call `next`: the only effects are those `fn` had before raising, and `e` propagates to
the caller. -/
theorem asyncHandler_sync_throw_propagates (fn : Req → Res → Next → FnRun) (req : Req)
    (res : Res) (next : Next) (e : Val) (h : (fn req res next).result = .error e) :
    asyncHandler fn req res next
      = { events := (fn req res next).events, thrown := some e } := by
  simp [asyncHandler, h]

/-- C18, witness: a handler that raises a plain `Error("sync")` at once; with the recording
continuation the trace is empty, so `next` is not called, and the error is thrown. -/
theorem asyncHandler_sync_throw_propagates_witness :
    ((fun (_ : Req) (_ : Res) (_ : Next) =>
        ({ events := [], result := .error (plainError "sync") } : FnRun))
      { originalUrl := str "/items", method := str "POST" } { helpers := none }
      nextStage).result = .error (plainError "sync")
    ∧ asyncHandler
        (fun _ _ _ => { events := [], result := .error (plainError "sync") })
        { originalUrl := str "/items", method := str "POST" } { helpers := none } nextStage
      = { events := [], thrown := some (plainError "sync") } :=
  ⟨rfl,
    asyncHandler_sync_throw_propagates
      (fun _ _ _ => { events := [], result := .error (plainError "sync") })
      { originalUrl := str "/items", method := str "POST" } { helpers := none } nextStage
      (plainError "sync") rfl⟩

/-- A truthy value can be read from. -/
theorem getProp_of_truthy {r : Val} (h : truthy r = true) (k : String) :
    ∃ v, getProp r k = .ok v := by
  cases r <;> simp [truthy, getProp] at h ⊢

/-- A value other than `undefined` and `null` has a readable `name`. -/
theorem name_of_non_nullish {err : Val} (hu : err ≠ undefined) (hn : err ≠ null) :
    ∃ n, getProp err "name" = .ok n := by
  cases err <;> first
    | exact absurd rfl hu
    | exact absurd rfl hn
    | exact ⟨_, rfl⟩

/-- A value whose `name` can be read and converted to a key is classified by `resolve`. -/
theorem resolve_of_convertible_name {err n : Val} {key : String}
    (hn : getProp err "name" = .ok n) (hk : toStr n = .ok key) :
    ∃ r, ErrorRegistry.resolve err = .ok r :=
  ⟨_, resolve_of_name hn hk⟩

/-- A falsy result of `resolve` is `null`. -/
theorem resolve_falsy_is_null {err r : Val} (h : ErrorRegistry.resolve err = .ok r)
    (hr : truthy r = false) : r = null := by
  obtain ⟨n, key, hn, hk⟩ := name_key_of_resolve h
  rw [resolve_of_name hn hk] at h
  have h' := Except.ok.inj h
  by_cases ht : truthy (getFrom objectPrototype ErrorRegistry.map key) = true
  · rw [if_pos ht] at h'
    rw [← h', ht] at hr
    exact absurd hr (by decide)
  · rw [if_neg ht] at h'
    exact h'.symm

/-- What `errorHandler` does once `resolve` has returned a truthy value and the helpers are
attached: one `res.error` call with that value's `message`, `code` and `status`. -/
theorem errorHandler_of_truthy {err r m c s i : Val} (rq req : Req) (next : Next)
    (now : String) (h : ErrorRegistry.resolve err = .ok r) (ht : truthy r = true)
    (hm : getProp r "message" = .ok m) (hc : getProp r "code" = .ok c)
    (hs : getProp r "status" = .ok s) (hi : getProp err "message" = .ok i) :
    errorHandler err req { helpers := some rq } next now =
      { events := resError rq now m c s null (literal [("internal", i)]),
        thrown := none } := by
  unfold errorHandler
  rw [h]
  simp only [hm, hc, hs, ht, hi]
  rfl

/-- The shape of every run of `errorHandler` on a classified error with the helpers attached:
an optional log entry (exactly when `resolve` gave `null`), then one status `s` and one body
whose metadata is `{timestamp, endpoint, method, responseCode: s, internal}`. -/
theorem errorHandler_shape {err r : Val} (rq req : Req) (next : Next) (now : String)
    (h : ErrorRegistry.resolve err = .ok r) :
    ∃ pre m c s0 i,
      getProp err "message" = .ok i
      ∧ ((pre = [] ∧ truthy r = true ∧ getProp r "status" = .ok s0)
          ∨ (pre = [Event.log err] ∧ r = null ∧ s0 = num 500))
      ∧ errorHandler err req { helpers := some rq } next now =
          { events := pre ++
              [Event.status (dflt s0 (num 400)),
               Event.json (ApiResponse.error m c null
                 (literal [("endpoint", rq.originalUrl), ("method", rq.method),
                   ("responseCode", dflt s0 (num 400)), ("internal", i)]) now)],
            thrown := none } := by
  obtain ⟨i, hi⟩ := message_of_resolve h
  by_cases ht : truthy r = true
  · obtain ⟨m, hm⟩ := getProp_of_truthy ht "message"
    obtain ⟨c, hc⟩ := getProp_of_truthy ht "code"
    obtain ⟨s0, hs⟩ := getProp_of_truthy ht "status"
    refine ⟨[], m, dflt c (str "ERROR"), s0, i, hi, Or.inl ⟨rfl, ht, hs⟩, ?_⟩
    rw [errorHandler_of_truthy rq req next now h ht hm hc hs hi]
    cases c <;> rfl
  · have hnull : r = null := resolve_falsy_is_null h (by simpa using ht)
    subst hnull
    refine ⟨[Event.log err], str "An unexpected error occurred",
      str "INTERNAL_SERVER_ERROR", num 500, i, hi, Or.inr ⟨rfl, rfl, rfl⟩, ?_⟩
    rw [errorHandler_of_null rq req next now h hi]
    rfl

/-- What `errorHandler` does when `resolve` raises: it raises the same exception, having
emitted nothing. -/
theorem errorHandler_of_resolve_error {err e : Val} (req : Req) (res : Res) (next : Next)
    (now : String) (h : ErrorRegistry.resolve err = .error e) :
    errorHandler err req res next now = { events := [], thrown := some e } := by
  unfold errorHandler
  rw [h]

/-- C13, as amended: on a response prepared by `responseMiddleware`, `errorHandler` completes
without raising exactly when the `name` of the raised value can be read and converted to a
property key. That is so for every value other than `null` and `undefined` whose `name` is
absent or a primitive, a value with no `name` or `message` included. -/
theorem errorHandler_completes_iff_name_converts (err : Val) (rq req : Req) (res0 : Res)
    (next0 next : Next) (now : String) :
    ((errorHandler err req (responseMiddleware rq res0 next0).1 next now).thrown = none
      ↔ ∃ n key, getProp err "name" = .ok n ∧ toStr n = .ok key)
    ∧ (err ≠ undefined → err ≠ null →
        (∀ n, getProp err "name" = .ok n → isPrimitive n = true) →
        (errorHandler err req (responseMiddleware rq res0 next0).1 next now).thrown
          = none) := by
  have hres : (responseMiddleware rq res0 next0).1 = { helpers := some rq } := rfl
  have hconv : ∀ n key, getProp err "name" = .ok n → toStr n = .ok key →
      (errorHandler err req (responseMiddleware rq res0 next0).1 next now).thrown = none := by
    intro n key hn hk
    obtain ⟨r, h⟩ := resolve_of_convertible_name hn hk
    obtain ⟨pre, m, c, s0, i, _, _, hrun⟩ := errorHandler_shape rq req next now h
    rw [hres, hrun]
  refine ⟨⟨?_, ?_⟩, ?_⟩
  · intro hthrown
    cases h : ErrorRegistry.resolve err with
    | error e =>
      rw [errorHandler_of_resolve_error req _ next now h] at hthrown
      cases hthrown
    | ok r => exact name_key_of_resolve h
  · rintro ⟨n, key, hn, hk⟩
    exact hconv n key hn hk
  · intro hu hnull hprim
    obtain ⟨n, hn⟩ := name_of_non_nullish hu hnull
    obtain ⟨key, hk⟩ := toStr_of_primitive (hprim n hn)
    exact hconv n key hn hk

/-- C13, witness: the empty object `{}`, which has neither `name` nor `message`, on
`GET /x`. -/
theorem errorHandler_completes_iff_name_converts_witness :
    literal [] ≠ undefined ∧ literal [] ≠ null
    ∧ (∀ n, getProp (literal []) "name" = .ok n → isPrimitive n = true)
    ∧ (errorHandler (literal []) { originalUrl := str "/x", method := str "GET" }
        (responseMiddleware { originalUrl := str "/x", method := str "GET" }
          { helpers := none } nextStage).1 nextStage "2024-05-01T10:00:00.000Z").thrown
      = none :=
  have hprim : ∀ n, getProp (literal []) "name" = .ok n → isPrimitive n = true :=
    fun n hn => by
      have hundef : (Except.ok undefined : Except Val Val) = .ok n := hn
      rw [← Except.ok.inj hundef]
      rfl
  ⟨fun h => Val.noConfusion h, fun h => Val.noConfusion h, hprim,
    (errorHandler_completes_iff_name_converts (literal [])
      { originalUrl := str "/x", method := str "GET" }
      { originalUrl := str "/x", method := str "GET" } { helpers := none } nextStage nextStage
      "2024-05-01T10:00:00.000Z").2
      (fun h => Val.noConfusion h) (fun h => Val.noConfusion h) hprim⟩

/-- C13, counterexample: handed `null` or `undefined`, `errorHandler` raises a TypeError (the
read `err.name` in `resolve` fails) and emits nothing, even on a response prepared by
`responseMiddleware`; so it does when handed an object whose `name` cannot be converted to a
property key, such as `{name: Object.create(null)}` or `{name: {toString: 1, valueOf: 1}}`. -/
theorem errorHandler_raises_on_null_and_undefined :
    errorHandler null { originalUrl := str "/x", method := str "GET" }
        (responseMiddleware { originalUrl := str "/x", method := str "GET" }
          { helpers := none } nextStage).1 nextStage "2024-05-01T10:00:00.000Z"
      = { events := [],
          thrown := some
            (typeError "Cannot read properties of null (reading \x27name\x27)") }
    ∧ errorHandler undefined { originalUrl := str "/x", method := str "GET" }
        (responseMiddleware { originalUrl := str "/x", method := str "GET" }
          { helpers := none } nextStage).1 nextStage "2024-05-01T10:00:00.000Z"
      = { events := [],
          thrown := some
            (typeError "Cannot read properties of undefined (reading \x27name\x27)") }
    ∧ errorHandler (literal [("name", obj null [])])
        { originalUrl := str "/x", method := str "GET" }
        (responseMiddleware { originalUrl := str "/x", method := str "GET" }
          { helpers := none } nextStage).1 nextStage "2024-05-01T10:00:00.000Z"
      = { events := [],
          thrown := some (typeError "Cannot convert object to primitive value") }
    ∧ errorHandler
        (literal [("name", literal [("toString", num 1), ("valueOf", num 1)])])
        { originalUrl := str "/x", method := str "GET" }
        (responseMiddleware { originalUrl := str "/x", method := str "GET" }
          { helpers := none } nextStage).1 nextStage "2024-05-01T10:00:00.000Z"
      = { events := [],
          thrown := some (typeError "Cannot convert object to primitive value") } :=
  ⟨rfl, rfl, rfl, rfl⟩

/-- C14, as amended: one run of `errorHandler` on a response prepared by `responseMiddleware`
never makes two `res.status` calls or two body emissions and never calls `next` (the run is
the same whatever `next` is, and records no call of it). For every error that `resolve`
classifies, mapped or unmapped, it makes exactly one `res.status` call and exactly one body
emission, in that order and preceded at most by the log entry, and raises nothing; when
`resolve` raises (the error is `null` or `undefined`, or its `name` does not convert to a
property key) it raises the same exception and emits nothing. -/
theorem errorHandler_one_response_or_raises (err : Val) (rq req : Req) (res0 : Res)
    (next0 next : Next) (now : String) :
    ((errorHandler err req (responseMiddleware rq res0 next0).1 next now).events.filter
        Event.isStatus).length ≤ 1
    ∧ ((errorHandler err req (responseMiddleware rq res0 next0).1 next now).events.filter
        Event.isJson).length ≤ 1
    ∧ (errorHandler err req (responseMiddleware rq res0 next0).1 next now).events.filter
        Event.isNext = []
    ∧ (∀ other : Next,
        errorHandler err req (responseMiddleware rq res0 next0).1 other now
          = errorHandler err req (responseMiddleware rq res0 next0).1 next now)
    ∧ (∀ r, ErrorRegistry.resolve err = .ok r →
        (∃ s body,
          (errorHandler err req (responseMiddleware rq res0 next0).1 next now).events
              = [Event.status s, Event.json body]
          ∨ (errorHandler err req (responseMiddleware rq res0 next0).1 next now).events
              = [Event.log err, Event.status s, Event.json body])
        ∧ ((errorHandler err req (responseMiddleware rq res0 next0).1 next now).events.filter
            Event.isStatus).length = 1
        ∧ ((errorHandler err req (responseMiddleware rq res0 next0).1 next now).events.filter
            Event.isJson).length = 1
        ∧ (errorHandler err req (responseMiddleware rq res0 next0).1 next now).thrown = none)
    ∧ (∀ e, ErrorRegistry.resolve err = .error e →
        errorHandler err req (responseMiddleware rq res0 next0).1 next now
          = { events := [], thrown := some e }) := by
  have hres : (responseMiddleware rq res0 next0).1 = { helpers := some rq } := rfl
  have hind : ∀ other : Next,
      errorHandler err req (responseMiddleware rq res0 next0).1 other now
        = errorHandler err req (responseMiddleware rq res0 next0).1 next now :=
    fun _ => rfl
  have hok : ∀ r, ErrorRegistry.resolve err = .ok r →
      (∃ s body,
        (errorHandler err req (responseMiddleware rq res0 next0).1 next now).events
            = [Event.status s, Event.json body]
        ∨ (errorHandler err req (responseMiddleware rq res0 next0).1 next now).events
            = [Event.log err, Event.status s, Event.json body])
      ∧ ((errorHandler err req (responseMiddleware rq res0 next0).1 next now).events.filter
          Event.isStatus).length = 1
      ∧ ((errorHandler err req (responseMiddleware rq res0 next0).1 next now).events.filter
          Event.isJson).length = 1
      ∧ (errorHandler err req (responseMiddleware rq res0 next0).1 next now).events.filter
          Event.isNext = []
      ∧ (errorHandler err req (responseMiddleware rq res0 next0).1 next now).thrown
          = none := by
    intro r h
    obtain ⟨pre, m, c, s0, i, _, hpre, hrun⟩ := errorHandler_shape rq req next now h
    refine ⟨?_, ?_, ?_, ?_, ?_⟩ <;> rw [hres, hrun]
    · rcases hpre with ⟨rfl, _⟩ | ⟨rfl, _⟩
      · exact ⟨_, _, Or.inl rfl⟩
      · exact ⟨_, _, Or.inr rfl⟩
    · rcases hpre with ⟨rfl, _⟩ | ⟨rfl, _⟩ <;> rfl
    · rcases hpre with ⟨rfl, _⟩ | ⟨rfl, _⟩ <;> rfl
    · rcases hpre with ⟨rfl, _⟩ | ⟨rfl, _⟩ <;> rfl
  have herr : ∀ e, ErrorRegistry.resolve err = .error e →
      errorHandler err req (responseMiddleware rq res0 next0).1 next now
        = { events := [], thrown := some e } :=
    fun e h => errorHandler_of_resolve_error req _ next now h
  refine ⟨?_, ?_, ?_, hind, fun r h => ⟨(hok r h).1, (hok r h).2.1, (hok r h).2.2.1,
    (hok r h).2.2.2.2⟩, herr⟩
  · cases h : ErrorRegistry.resolve err with
    | error e => rw [herr e h]; exact Nat.zero_le 1
    | ok r => exact le_of_eq (hok r h).2.1
  · cases h : ErrorRegistry.resolve err with
    | error e => rw [herr e h]; exact Nat.zero_le 1
    | ok r => exact le_of_eq (hok r h).2.2.1
  · cases h : ErrorRegistry.resolve err with
    | error e => rw [herr e h]; rfl
    | ok r => exact (hok r h).2.2.2.1

/-- C14, witness: `ValidationError("bad field")` on `POST /items` gives one status call and
one body emission. -/
theorem errorHandler_one_response_or_raises_witness :
    ErrorRegistry.resolve
        (obj (classPrototype "ValidationError" AppError.prototype)
          [("message", str "bad field"), ("name", str "ValidationError")])
      = .ok (entry "Invalid or missing data" "VALIDATION_ERROR" 422)
    ∧ ((errorHandler
          (obj (classPrototype "ValidationError" AppError.prototype)
            [("message", str "bad field"), ("name", str "ValidationError")])
          { originalUrl := str "/items", method := str "POST" }
          (responseMiddleware { originalUrl := str "/items", method := str "POST" }
            { helpers := none } nextStage).1 nextStage
          "2024-05-01T10:00:00.000Z").events.filter Event.isStatus).length = 1
    ∧ ((errorHandler
          (obj (classPrototype "ValidationError" AppError.prototype)
            [("message", str "bad field"), ("name", str "ValidationError")])
          { originalUrl := str "/items", method := str "POST" }
          (responseMiddleware { originalUrl := str "/items", method := str "POST" }
            { helpers := none } nextStage).1 nextStage
          "2024-05-01T10:00:00.000Z").events.filter Event.isJson).length = 1 :=
  ⟨rfl,
    ((errorHandler_one_response_or_raises
      (obj (classPrototype "ValidationError" AppError.prototype)
        [("message", str "bad field"), ("name", str "ValidationError")])
      { originalUrl := str "/items", method := str "POST" }
      { originalUrl := str "/items", method := str "POST" } { helpers := none }
      nextStage nextStage "2024-05-01T10:00:00.000Z").2.2.2.2.1 _ rfl).2.1,
    ((errorHandler_one_response_or_raises
      (obj (classPrototype "ValidationError" AppError.prototype)
        [("message", str "bad field"), ("name", str "ValidationError")])
      { originalUrl := str "/items", method := str "POST" }
      { originalUrl := str "/items", method := str "POST" } { helpers := none }
      nextStage nextStage "2024-05-01T10:00:00.000Z").2.2.2.2.1 _ rfl).2.2.1⟩

/-- C14, counterexample: handed `null`, or an object whose `name` is `Object.create(null)`,
one run of `errorHandler` emits no response at all: no `res.status` call and no body. -/
theorem errorHandler_emits_nothing_when_resolve_raises :
    ((errorHandler null { originalUrl := str "/x", method := str "GET" }
        (responseMiddleware { originalUrl := str "/x", method := str "GET" }
          { helpers := none } nextStage).1 nextStage
        "2024-05-01T10:00:00.000Z").events.filter Event.isJson).length = 0
    ∧ ((errorHandler null { originalUrl := str "/x", method := str "GET" }
        (responseMiddleware { originalUrl := str "/x", method := str "GET" }
          { helpers := none } nextStage).1 nextStage
        "2024-05-01T10:00:00.000Z").events.filter Event.isStatus).length = 0
    ∧ (errorHandler (literal [("name", obj null [])])
        { originalUrl := str "/x", method := str "GET" }
        (responseMiddleware { originalUrl := str "/x", method := str "GET" }
          { helpers := none } nextStage).1 nextStage
        "2024-05-01T10:00:00.000Z").events = [] :=
  ⟨rfl, rfl, rfl⟩

/-- C16: for every error that `resolve` classifies, handled on a response prepared by
`responseMiddleware` for the request `rq`, the status `s` that is set is also the body's
`meta.responseCode`, `meta.endpoint` and `meta.method` are the request's, and
`meta.internal` is the error's message; `s` is the entry's status when `resolve` gave an
entry and 500 when it gave `null`. -/
theorem errorHandler_meta_matches_response (err r : Val) (rq req : Req) (res0 : Res)
    (next0 next : Next) (now : String) (h : ErrorRegistry.resolve err = .ok r) :
    ∃ pre s body,
      (errorHandler err req (responseMiddleware rq res0 next0).1 next now).events
        = pre ++ [Event.status s, Event.json body]
      ∧ (pre = [] ∨ pre = [Event.log err])
      ∧ getPath body ["meta", "responseCode"] = .ok s
      ∧ getPath body ["meta", "endpoint"] = .ok rq.originalUrl
      ∧ getPath body ["meta", "method"] = .ok rq.method
      ∧ getPath body ["meta", "internal"] = getProp err "message"
      ∧ (∀ msg code st, r = entry msg code st → s = num st)
      ∧ (r = null → s = num 500) := by
  obtain ⟨pre, m, c, s0, i, hi, hpre, hrun⟩ := errorHandler_shape rq req next now h
  refine ⟨pre, dflt s0 (num 400),
    ApiResponse.error m c null
      (literal [("endpoint", rq.originalUrl), ("method", rq.method),
        ("responseCode", dflt s0 (num 400)), ("internal", i)]) now,
    ?_, ?_, rfl, rfl, rfl, ?_, ?_, ?_⟩
  · rw [show (responseMiddleware rq res0 next0).1 = { helpers := some rq } from rfl, hrun]
  · rcases hpre with ⟨rfl, _⟩ | ⟨rfl, _⟩
    · exact Or.inl rfl
    · exact Or.inr rfl
  · rw [hi]
    rfl
  · intro msg code st hr
    subst hr
    rcases hpre with ⟨_, _, hs⟩ | ⟨_, hnull, _⟩
    · have hst : getProp (entry msg code st) "status" = .ok (num st) := rfl
      rw [hst] at hs
      rw [← Except.ok.inj hs]
      rfl
    · exact absurd hnull (fun h => Val.noConfusion h)
  · intro hr
    subst hr
    rcases hpre with ⟨_, ht, _⟩ | ⟨_, _, hs⟩
    · exact absurd ht (by decide)
    · rw [hs]
      rfl

/-- C16, witness: `NotFoundError("no such user")` on `GET /users/7`: status 404 and
`meta.responseCode` 404, `meta.endpoint` "/users/7", `meta.method` "GET". -/
theorem errorHandler_meta_matches_response_witness :
    ErrorRegistry.resolve
        (obj (classPrototype "NotFoundError" AppError.prototype)
          [("message", str "no such user"), ("name", str "NotFoundError")])
      = .ok (entry "Resource not found" "NOT_FOUND" 404)
    ∧ ∃ pre s body,
      (errorHandler
          (obj (classPrototype "NotFoundError" AppError.prototype)
            [("message", str "no such user"), ("name", str "NotFoundError")])
          { originalUrl := str "/users/7", method := str "GET" }
          (responseMiddleware { originalUrl := str "/users/7", method := str "GET" }
            { helpers := none } nextStage).1 nextStage "2024-05-01T10:00:00.000Z").events
        = pre ++ [Event.status s, Event.json body]
      ∧ (pre = [] ∨ pre = [Event.log
          (obj (classPrototype "NotFoundError" AppError.prototype)
            [("message", str "no such user"), ("name", str "NotFoundError")])])
      ∧ getPath body ["meta", "responseCode"] = .ok s
      ∧ getPath body ["meta", "endpoint"] = .ok (str "/users/7")
      ∧ getPath body ["meta", "method"] = .ok (str "GET")
      ∧ getPath body ["meta", "internal"]
          = getProp (obj (classPrototype "NotFoundError" AppError.prototype)
              [("message", str "no such user"), ("name", str "NotFoundError")]) "message"
      ∧ (∀ msg code st, entry "Resource not found" "NOT_FOUND" 404 = entry msg code st →
          s = num st)
      ∧ (entry "Resource not found" "NOT_FOUND" 404 = null → s = num 500) :=
  ⟨rfl, errorHandler_meta_matches_response _ _ _ _ _ _ _ _ rfl⟩

/-- C17, as amended: `resolve` depends only on the error's `name`: two values whose `name`
reads agree resolve alike, whatever their class, message or other fields. An instance of a
class `cls` that extends another class takes the name `cls`; when `cls` is neither one of
the four mapped class names nor the name of a member of `Object.prototype`, it resolves to
`null` and `errorHandler` answers it as unmapped, with the log entry and status 500. -/
theorem resolve_depends_only_on_name (e1 e2 parent : Val) (cls m : String) (rq req : Req)
    (res0 : Res) (next0 next : Next) (now : String) :
    (getProp e1 "name" = getProp e2 "name" →
        ErrorRegistry.resolve e1 = ErrorRegistry.resolve e2)
    ∧ AppError.construct (classPrototype cls parent) (str m)
        = .ok (obj (classPrototype cls parent) [("message", str m), ("name", str cls)])
    ∧ (cls ∉ ["ValidationError", "NotFoundError", "UnauthorizedError", "ForbiddenError"] →
        cls ∉ "constructor" :: "__proto__" :: objectPrototypeMethods →
        ErrorRegistry.resolve
            (obj (classPrototype cls parent) [("message", str m), ("name", str cls)])
          = .ok null
        ∧ ∃ body,
          errorHandler
              (obj (classPrototype cls parent) [("message", str m), ("name", str cls)])
              req (responseMiddleware rq res0 next0).1 next now
            = { events := [Event.log
                    (obj (classPrototype cls parent)
                      [("message", str m), ("name", str cls)]),
                  Event.status (num 500), Event.json body],
                thrown := none }
          ∧ getPath body ["error", "code"] = .ok (str "INTERNAL_SERVER_ERROR")) := by
  refine ⟨?_, rfl, ?_⟩
  · intro hname
    unfold ErrorRegistry.resolve
    rw [hname]
  · intro hmapped hproto
    have hname : getProp
        (obj (classPrototype cls parent) [("message", str m), ("name", str cls)]) "name"
        = .ok (str cls) := rfl
    have hnull := resolve_null_of_unlisted_name hname rfl hmapped hproto
    refine ⟨hnull, ApiResponse.error (str "An unexpected error occurred")
      (str "INTERNAL_SERVER_ERROR") null
      (literal ([("endpoint", rq.originalUrl), ("method", rq.method),
        ("responseCode", num 500)] ++ [("internal", str m)])) now, ?_, rfl⟩
    rw [show (responseMiddleware rq res0 next0).1 = { helpers := some rq } from rfl,
      errorHandler_of_null rq req next now hnull rfl]
    rfl

/-- C17, witness: the class name "UserNotFoundError", extending `NotFoundError`, on
`GET /users/7`. -/
theorem resolve_depends_only_on_name_witness :
    "UserNotFoundError"
        ∉ ["ValidationError", "NotFoundError", "UnauthorizedError", "ForbiddenError"]
    ∧ "UserNotFoundError" ∉ "constructor" :: "__proto__" :: objectPrototypeMethods
    ∧ ErrorRegistry.resolve
        (obj (classPrototype "UserNotFoundError"
            (classPrototype "NotFoundError" AppError.prototype))
          [("message", str "no user 7"), ("name", str "UserNotFoundError")])
      = .ok null
    ∧ ∃ body,
      errorHandler
          (obj (classPrototype "UserNotFoundError"
              (classPrototype "NotFoundError" AppError.prototype))
            [("message", str "no user 7"), ("name", str "UserNotFoundError")])
          { originalUrl := str "/users/7", method := str "GET" }
          (responseMiddleware { originalUrl := str "/users/7", method := str "GET" }
            { helpers := none } nextStage).1 nextStage "2024-05-01T10:00:00.000Z"
        = { events := [Event.log
                (obj (classPrototype "UserNotFoundError"
                    (classPrototype "NotFoundError" AppError.prototype))
                  [("message", str "no user 7"), ("name", str "UserNotFoundError")]),
              Event.status (num 500), Event.json body],
            thrown := none }
      ∧ getPath body ["error", "code"] = .ok (str "INTERNAL_SERVER_ERROR") :=
  ⟨by decide, by decide,
    (resolve_depends_only_on_name undefined undefined
      (classPrototype "NotFoundError" AppError.prototype) "UserNotFoundError" "no user 7"
      { originalUrl := str "/users/7", method := str "GET" }
      { originalUrl := str "/users/7", method := str "GET" } { helpers := none }
      nextStage nextStage "2024-05-01T10:00:00.000Z").2.2 (by decide) (by decide)⟩

/-- C17, an example: an instance of `class UserNotFoundError extends NotFoundError {}` is
named "UserNotFoundError", resolves to `null` and gets status 500. -/
theorem subclass_with_new_name_unmapped_example :
    AppError.construct
        (classPrototype "UserNotFoundError"
          (classPrototype "NotFoundError" AppError.prototype)) (str "no user 7")
      = .ok (obj (classPrototype "UserNotFoundError"
            (classPrototype "NotFoundError" AppError.prototype))
          [("message", str "no user 7"), ("name", str "UserNotFoundError")])
    ∧ ErrorRegistry.resolve
        (obj (classPrototype "UserNotFoundError"
            (classPrototype "NotFoundError" AppError.prototype))
          [("message", str "no user 7"), ("name", str "UserNotFoundError")])
      = .ok null
    ∧ (errorHandler
        (obj (classPrototype "UserNotFoundError"
            (classPrototype "NotFoundError" AppError.prototype))
          [("message", str "no user 7"), ("name", str "UserNotFoundError")])
        { originalUrl := str "/users/7", method := str "GET" }
        (responseMiddleware { originalUrl := str "/users/7", method := str "GET" }
          { helpers := none } nextStage).1 nextStage
        "2024-05-01T10:00:00.000Z").events.filter Event.isStatus
      = [Event.status (num 500)] :=
  ⟨rfl, rfl, rfl⟩

/-- C17, counterexample: an instance of `class ValidationError extends NotFoundError {}`, a
class that extends a mapped class under a different class name, takes the name
"ValidationError" and is not treated as unmapped: it resolves to the validation entry and
gets status 422, with no log entry. -/
theorem subclass_named_like_mapped_class_is_mapped :
    AppError.construct
        (classPrototype "ValidationError"
          (classPrototype "NotFoundError" AppError.prototype)) (str "x")
      = .ok (obj (classPrototype "ValidationError"
            (classPrototype "NotFoundError" AppError.prototype))
          [("message", str "x"), ("name", str "ValidationError")])
    ∧ ErrorRegistry.resolve
        (obj (classPrototype "ValidationError"
            (classPrototype "NotFoundError" AppError.prototype))
          [("message", str "x"), ("name", str "ValidationError")])
      = .ok (entry "Invalid or missing data" "VALIDATION_ERROR" 422)
    ∧ ∃ body,
      errorHandler
          (obj (classPrototype "ValidationError"
              (classPrototype "NotFoundError" AppError.prototype))
            [("message", str "x"), ("name", str "ValidationError")])
          { originalUrl := str "/items", method := str "POST" }
          (responseMiddleware { originalUrl := str "/items", method := str "POST" }
            { helpers := none } nextStage).1 nextStage "2024-05-01T10:00:00.000Z"
        = { events := [Event.status (num 422), Event.json body], thrown := none }
      ∧ getPath body ["error", "code"] = .ok (str "VALIDATION_ERROR") :=
  ⟨rfl, rfl, _, rfl, rfl⟩

end ExpressUtils
